import Mathlib

/-!
# AdminReports: report fetching, normalisation and export

A shallow embedding of `src/components/admin/AdminReports.js`.

* JavaScript values are the inductive type `JsVal`; numbers are integers
  (the component only tests numbers for truthiness and formats them).
* The component state kept by the React hooks is the record `ViewState`.
* Asynchronous handlers are functions in the monad `Eff`: a state
  transformer over `World` (view state, request counter, event trace, files
  written) that can end in a thrown `JsError`.  `try / catch / finally` of the source is
  the `try / catch / finally` of this monad.
* The API client, the HTTP layer and the browser are an `Env` of oracles
  that answer the n-th request of the session.
-/

namespace AdminReports

/-! ## Values -/

/-- JavaScript values that a decoded payload, a property read or a `throw` can hold.
`num n` is the number with the integer value `n`, meant for the integers a double holds
exactly; fractions are not values of the model. `str s` is a string of Unicode
characters. Functions are not values of the model: the objects are plain data. -/
inductive JsVal where
  | undefined : JsVal
  | null : JsVal
  | bool (b : Bool) : JsVal
  | num (n : Int) : JsVal
  | str (s : String) : JsVal
  | arr (items : List JsVal) : JsVal
  | obj (fields : List (String × JsVal)) : JsVal

instance : Inhabited JsVal := ⟨JsVal.undefined⟩

/-- A thrown value. `throw` and a rejected promise carry any JavaScript value, so `catch
(error)` can bind an Error object, a plain object, a primitive, null or undefined. -/
abbrev JsError := JsVal

/-- An Error object with the given message; the program reads no other property of it. -/
def errorWith (message : String) : JsVal := .obj [("message", .str message)]

/-- Wording of the TypeErrors raised by the JavaScript engine itself. -/
structure Engine where
  readOfNullish : JsVal → String → String
  notAFunction : String → String

/-- Truthiness of a value (`if (v)`, `v || d`, `v && w`). -/
def truthy : JsVal → Bool
  | .undefined => false
  | .null => false
  | .bool b => b
  | .num n => n != 0
  | .str s => s != ""
  | .arr _ => true
  | .obj _ => true

/-- The values on which a property read throws. -/
def nullish : JsVal → Bool
  | .undefined => true
  | .null => true
  | _ => false

/-- JavaScript `a || b` for already evaluated operands. -/
def jsOr (a b : JsVal) : JsVal := if truthy a then a else b

mutual
/-- Conversion `String(v)`, as applied by `+` to the right operand of a string. -/
def toJsString : JsVal → String
  | .undefined => "undefined"
  | .null => "null"
  | .bool b => if b then "true" else "false"
  | .num n => toString n
  | .str s => s
  | .arr xs => joinItems xs
  | .obj _ => "[object Object]"
termination_by structural v => v
/-- Method `xs.join(",")`: null and undefined elements give the empty string. -/
def joinItems : List JsVal → String
  | [] => ""
  | x :: xs =>
    (if nullish x then "" else toJsString x) ++ (if xs.isEmpty then "" else ",") ++ joinItems xs
termination_by structural l => l
end

/-- First binding of key `k` in a list of object fields. -/
def lookupField (k : String) : List (String × JsVal) → Option JsVal
  | [] => none
  | (k', v) :: fs => if k' = k then some v else lookupField k fs

/-- Assignment of key `k`: an existing key keeps its place, a new key goes last. -/
def setField (k : String) (v : JsVal) : List (String × JsVal) → List (String × JsVal)
  | [] => [(k, v)]
  | (k', v') :: fs => if k' = k then (k, v) :: fs else (k', v') :: setField k v fs

/-- Value of `v.k` for a value that is not null or undefined.  The keys read by the
component are plain field names, which primitives and arrays do not carry. -/
def field (v : JsVal) (k : String) : JsVal :=
  match v with
  | .obj fs => (lookupField k fs).getD .undefined
  | _ => .undefined

/-- Property read `v.k`: throws a TypeError on null and undefined. -/
def getProp (eng : Engine) (v : JsVal) (k : String) : Except JsError JsVal :=
  if nullish v then .error (errorWith (eng.readOfNullish v k)) else .ok (field v k)

/-- Optional chaining `v?.k`. -/
def getPropOpt (v : JsVal) (k : String) : JsVal :=
  if nullish v then .undefined else field v k

/-- Index keys "0", "1", ... paired with the elements. -/
def indexed (xs : List JsVal) : List (String × JsVal) :=
  xs.enum.map fun p => (toString p.1, p.2)

/-- Own enumerable properties copied by object spread `{...v}`: the fields of an object,
the elements of an array under their indices, nothing for the other primitives.  For a
string JavaScript copies one property per UTF-16 code unit and the model one per
character, which is the same on strings of characters of the Basic Multilingual Plane;
a character beyond it is two surrogate code units in JavaScript, which `String` cannot
hold, and statements about the spread of a string are limited to `spreadExact`. -/
def spread : JsVal → List (String × JsVal)
  | .obj fs => fs
  | .arr xs => indexed xs
  | .str s => indexed (s.data.map fun c => JsVal.str (String.singleton c))
  | _ => []

/-- Callback applied to each element in order; the first throw aborts the map. -/
def mapRecords (f : JsVal → Except JsError JsVal) : List JsVal → Except JsError (List JsVal)
  | [] => .ok []
  | x :: xs =>
    match f x with
    | .error e => .error e
    | .ok y =>
      match mapRecords f xs with
      | .error e => .error e
      | .ok ys => .ok (y :: ys)

/-- Method call `v.map(f)`; `callee` is the source text of `v.map`. -/
def jsMap (eng : Engine) (callee : String) (v : JsVal)
    (f : JsVal → Except JsError JsVal) : Except JsError JsVal :=
  match v with
  | .arr xs =>
    match mapRecords f xs with
    | .error e => .error e
    | .ok ys => .ok (.arr ys)
  | .undefined => .error (errorWith (eng.readOfNullish v "map"))
  | .null => .error (errorWith (eng.readOfNullish v "map"))
  | _ => .error (errorWith (eng.notAFunction callee))

/-! ## Component state and effects -/

/-- State held by the `useState` hooks of the component. -/
structure ViewState where
  stats : JsVal
  popularRooms : JsVal
  mostActiveUsers : JsVal
  monthlyActivity : JsVal
  loading : Bool
  error : Option String
  refreshTrigger : Nat
  exportLoading : Bool
  showPDFReport : Bool
  pdfData : JsVal

/-- Initial value of the `stats` hook (source lines 9-25). -/
def initialStats : JsVal :=
  .obj [("totalReservations", .num 0), ("approvedReservations", .num 0),
    ("pendingReservations", .num 0), ("rejectedReservations", .num 0),
    ("professorReservations", .num 0), ("studentReservations", .num 0),
    ("totalClassrooms", .num 0), ("totalStudyRooms", .num 0), ("totalUsers", .num 0),
    ("usersByRole", .obj [("adminCount", .num 0), ("professorCount", .num 0),
      ("studentCount", .num 0), ("otherCount", .num 0)])]

/-- Initial values of all hooks (source lines 9-41). -/
def initialView : ViewState where
  stats := initialStats
  popularRooms := .arr []
  mostActiveUsers := .arr []
  monthlyActivity := .arr []
  loading := true
  error := none
  refreshTrigger := 0
  exportLoading := false
  showPDFReport := false
  pdfData := .null

/-- Observable steps of a run, in program order. -/
inductive Event where
  | console (msg : String)
  | apiCall (method : String)
  | httpGet (url : String)
  | httpPost (url : String)
  | setLoading (b : Bool)
  | setError (e : Option String)
  | setExportLoading (b : Bool)
  | alert (msg : String)
  | browser (step : String)
  deriving DecidableEq

/-- View state, number of requests made so far, the trace of events, and the
workbooks handed to `XLSX.writeFile` (file name, sheets). -/
structure World where
  view : ViewState
  requests : Nat
  trace : List Event
  written : List (String × List (String × List JsVal))

/-- Outcome of an awaited request: a response or a thrown error. -/
abbrev Outcome := Except JsError JsVal

/-- Everything outside the component: the API client, axios, the browser, the engine. -/
structure Env where
  engine : Engine
  hasMethod : String → Bool
  api : Nat → String → Outcome
  httpGet : Nat → String → Outcome
  httpPost : Nat → String → Outcome
  browser : Nat → String → Except JsError Unit

/-- Computations of the component: they read and update the world and may throw. -/
def Eff (α : Type) : Type := World → Except JsError α × World

/-- Return a value without touching the world. -/
def Eff.pure {α : Type} (a : α) : Eff α := fun w => (.ok a, w)

/-- Sequencing; a throw skips the continuation. -/
def Eff.bind {α β : Type} (m : Eff α) (f : α → Eff β) : Eff β := fun w =>
  match m w with
  | (.ok a, w1) => f a w1
  | (.error e, w1) => (.error e, w1)

/-- Statement `throw e`. -/
def Eff.throw {α : Type} (e : JsError) : Eff α := fun w => (.error e, w)

/-- Block `try m catch (e) h`. -/
def Eff.tryCatch {α : Type} (m : Eff α) (h : JsError → Eff α) : Eff α := fun w =>
  match m w with
  | (.ok a, w1) => (.ok a, w1)
  | (.error e, w1) => h e w1

/-- Block `try m finally f`: `f` always runs; a throw of `f` replaces the outcome of `m`. -/
def Eff.tryFinally {α β : Type} (m : Eff α) (f : Option α → Eff β) : Eff (α × β) := fun w =>
  match m w with
  | (.ok a, w1) =>
    match f (some a) w1 with
    | (.ok b, w2) => (.ok (a, b), w2)
    | (.error e, w2) => (.error e, w2)
  | (.error e, w1) =>
    match f none w1 with
    | (.ok _, w2) => (.error e, w2)
    | (.error e2, w2) => (.error e2, w2)

instance : Monad Eff where
  pure := Eff.pure
  bind := Eff.bind

instance : MonadExcept JsError Eff where
  throw := Eff.throw
  tryCatch := Eff.tryCatch

instance : MonadFinally Eff where
  tryFinally' := Eff.tryFinally

/-- A pure evaluation step that may throw. -/
def liftE {α : Type} (r : Except JsError α) : Eff α := fun w => (r, w)

/-- Append an event to the trace. -/
def emit (e : Event) : Eff Unit := fun w => (.ok (), { w with trace := w.trace ++ [e] })

/-- Update the view state. -/
def modifyView (f : ViewState → ViewState) : Eff Unit := fun w =>
  (.ok (), { w with view := f w.view })

/-- Calls `console.log` and `console.error`, recorded by their first argument. -/
def console (msg : String) : Eff Unit := emit (.console msg)

/-- Blocking `alert(msg)`. -/
def alert (msg : String) : Eff Unit := emit (.alert msg)

def setStats (v : JsVal) : Eff Unit := modifyView fun s => { s with stats := v }
def setPopularRooms (v : JsVal) : Eff Unit := modifyView fun s => { s with popularRooms := v }
def setMostActiveUsers (v : JsVal) : Eff Unit := modifyView fun s => { s with mostActiveUsers := v }
def setMonthlyActivity (v : JsVal) : Eff Unit := modifyView fun s => { s with monthlyActivity := v }
def setPDFData (v : JsVal) : Eff Unit := modifyView fun s => { s with pdfData := v }
def setShowPDFReport (b : Bool) : Eff Unit := modifyView fun s => { s with showPDFReport := b }

def setLoading (b : Bool) : Eff Unit := do
  emit (.setLoading b)
  modifyView fun s => { s with loading := b }

def setError (e : Option String) : Eff Unit := do
  emit (.setError e)
  modifyView fun s => { s with error := e }

def setExportLoading (b : Bool) : Eff Unit := do
  emit (.setExportLoading b)
  modifyView fun s => { s with exportLoading := b }

/-- Awaited call `API.reportsAPI.method(...)`. -/
def apiCall (env : Env) (method : String) : Eff JsVal := fun w =>
  (env.api w.requests method,
    { w with requests := w.requests + 1, trace := w.trace ++ [.apiCall method] })

/-- Awaited call `axios.get(url, ...)`. -/
def axiosGet (env : Env) (url : String) : Eff JsVal := fun w =>
  (env.httpGet w.requests url,
    { w with requests := w.requests + 1, trace := w.trace ++ [.httpGet url] })

/-- Awaited call `axios.post(url)`. -/
def axiosPost (env : Env) (url : String) : Eff JsVal := fun w =>
  (env.httpPost w.requests url,
    { w with requests := w.requests + 1, trace := w.trace ++ [.httpPost url] })

/-- A step done by the browser or a library (module load, file download), which may throw. -/
def browserStep (env : Env) (step : String) : Eff Unit := fun w =>
  (env.browser w.requests step, { w with trace := w.trace ++ [.browser step] })

def reportsUrl : String := "http://localhost:8080/api/reports"
def regenerateUrl : String := "http://localhost:8080/api/reports/regenerate"
def csvUrl : String := "http://localhost:8080/api/reports/csv"
def pdfDataUrl : String := "http://localhost:8080/api/reports/pdf-data"

/-! ## processReportData (source lines 106-150) -/

/-- The literal `{ professor: 0, student: 0, admin: 0, unknown: 0 }`. -/
def defaultRoleData : JsVal :=
  .obj [("professor", .num 0), ("student", .num 0), ("admin", .num 0), ("unknown", .num 0)]

/-- Callback of `reportData.popularRooms.map` (lines 117-121). -/
def roomWithDefaults (eng : Engine) (room : JsVal) : Except JsError JsVal := do
  let percentage ← getProp eng room "percentage"
  let roleData ← getProp eng room "roleData"
  pure (.obj (setField "roleData" (jsOr roleData defaultRoleData)
    (setField "percentage" (jsOr percentage (.num 0)) (spread room))))

/-- Callback of `reportData.activeUsers.map` (lines 128-133). -/
def userWithDefaults (eng : Engine) (user : JsVal) : Except JsError JsVal := do
  let userName ← getProp eng user "userName"
  let role ← getProp eng user "role"
  let count ← getProp eng user "count"
  pure (.obj (setField "count" (jsOr count (.num 0))
    (setField "role" (jsOr role (.str "Unknown Role"))
      (setField "userName" (jsOr userName (.str "Unknown User")) (spread user)))))

/-- The conditional `v !== undefined ? v : 0`. -/
def definedOrZero : JsVal → JsVal
  | .undefined => .num 0
  | v => v

/-- Callback of `reportData.monthlyActivity.map` (lines 141-147). -/
def monthWithDefaults (eng : Engine) (month : JsVal) : Except JsError JsVal := do
  let professorCount ← getProp eng month "professorCount"
  let studentCount ← getProp eng month "studentCount"
  let adminCount ← getProp eng month "adminCount"
  let total ← getProp eng month "total"
  pure (.obj (setField "total" (jsOr total (.num 0))
    (setField "adminCount" (definedOrZero adminCount)
      (setField "studentCount" (jsOr studentCount (.num 0))
        (setField "professorCount" (jsOr professorCount (.num 0)) (spread month))))))

/-- Function `processReportData(reportData)`. -/
def processReportData (env : Env) (reportData : JsVal) : Eff Unit := do
  let statistics ← liftE (getProp env.engine reportData "statistics")
  if truthy statistics then
    console "Setting stats:"
    setStats statistics
  let popularRooms ← liftE (getProp env.engine reportData "popularRooms")
  if truthy popularRooms then
    console "Setting popular rooms:"
    let roomsWithDefaults ← liftE (jsMap env.engine "reportData.popularRooms.map"
      popularRooms (roomWithDefaults env.engine))
    setPopularRooms roomsWithDefaults
  let activeUsers ← liftE (getProp env.engine reportData "activeUsers")
  if truthy activeUsers then
    console "Setting active users:"
    let usersWithDefaults ← liftE (jsMap env.engine "reportData.activeUsers.map"
      activeUsers (userWithDefaults env.engine))
    setMostActiveUsers usersWithDefaults
  let monthlyActivity ← liftE (getProp env.engine reportData "monthlyActivity")
  if truthy monthlyActivity then
    console "Setting monthly activity:"
    let activityWithDefaults ← liftE (jsMap env.engine "reportData.monthlyActivity.map"
      monthlyActivity (monthWithDefaults env.engine))
    setMonthlyActivity activityWithDefaults

/-! ## fetchReportData (source lines 50-103) -/

/-- Method `s.includes(needle)` of strings: `needle` occurs in `s`. -/
def includes (s needle : String) : Bool :=
  s.data.tails.any fun t => needle.data.isPrefixOf t

/-- Method call `v.includes(needle)` with a string argument: strings search for a
substring, arrays for an element; no other value of the model has the method. -/
def jsIncludes (eng : Engine) (callee : String) (v : JsVal) (needle : String) :
    Except JsError Bool :=
  match v with
  | .str s => .ok (includes s needle)
  | .arr xs => .ok (xs.any fun x => match x with
      | .str s => s == needle
      | _ => false)
  | .undefined => .error (errorWith (eng.readOfNullish v "includes"))
  | .null => .error (errorWith (eng.readOfNullish v "includes"))
  | _ => .error (errorWith (eng.notAFunction callee))

/-- The expression `error.message || "Unknown error"`; reading `message` of a caught null
or undefined throws. -/
def messageOrUnknown (eng : Engine) (error : JsVal) : Except JsError JsVal := do
  let message ← getProp eng error "message"
  pure (jsOr message (.str "Unknown error"))

/-- The test `error.message && error.message.includes('undefined')` (line 94). -/
def mentionsUndefined (eng : Engine) (error : JsVal) : Except JsError Bool := do
  let message ← getProp eng error "message"
  if truthy message then jsIncludes eng "error.message.includes" message "undefined"
  else pure false

/-- Text computed by the inner `catch` of `fetchReportData` for `setError` (lines 94-98);
the computation throws when the caught value cannot be read. -/
def loadErrorMessage (eng : Engine) (error : JsVal) : Except JsError String := do
  if ← mentionsUndefined eng error then
    let message ← getProp eng error "message"
    pure ("Failed to load report data: API configuration error - " ++ toJsString message)
  else
    let message ← messageOrUnknown eng error
    pure ("Failed to load report data: " ++ toJsString message)

/-- Handler `fetchReportData`. -/
def fetchReportData (env : Env) : Eff Unit := do
  try
    console "⚠️ About to fetch report data"
    setLoading true
    setError none
    if env.hasMethod "getReportsData" then
      console "Using API.reportsAPI for data fetch"
      let response ← apiCall env "getReportsData"
      console "✅ Response received:"
      let reportData ← liftE (getProp env.engine response "data")
      processReportData env reportData
    else
      console "API.reportsAPI not available, using direct axios call"
      let response ← axiosGet env reportsUrl
      console "✅ Response received from direct axios call:"
      let reportData ← liftE (getProp env.engine response "data")
      processReportData env reportData
  catch error =>
    console "❌ Error fetching report data:"
    (do
      try
        console "Attempting direct axios request as fallback"
        let response ← axiosGet env reportsUrl
        let reportData ← liftE (getProp env.engine response "data")
        processReportData env reportData
        setError none
      catch _ =>
        console "Fallback request also failed:"
        let message ← liftE (loadErrorMessage env.engine error)
        setError (some message))
  finally
    setLoading false

/-! ## handleRefresh, handleRegenerate (source lines 153-177) -/

/-- Handler `handleRefresh`: bumps the trigger that re-runs the fetch effect. -/
def handleRefresh : Eff Unit :=
  modifyView fun s => { s with refreshTrigger := s.refreshTrigger + 1 }

/-- Text computed by the `catch` of `handleRegenerate` for `setError` (line 173); the
computation throws when the caught value is null or undefined. -/
def regenerateErrorMessage (eng : Engine) (error : JsVal) : Except JsError String := do
  let message ← messageOrUnknown eng error
  pure ("Failed to regenerate reports: " ++ toJsString message)

/-- Handler `handleRegenerate`. -/
def handleRegenerate (env : Env) : Eff Unit := do
  try
    setLoading true
    if env.hasMethod "regenerateReports" then
      let _ ← apiCall env "regenerateReports"
    else
      let _ ← axiosPost env regenerateUrl
    fetchReportData env
  catch error =>
    console "Error regenerating reports:"
    let message ← liftE (regenerateErrorMessage env.engine error)
    setError (some message)
  finally
    setLoading false

/-! ## Exports (source lines 180-328) -/

/-- Handler `generateCSV`. -/
def generateCSV (env : Env) : Eff Unit := do
  try
    setExportLoading true
    let response ←
      if env.hasMethod "exportCsv" then apiCall env "exportCsv" else axiosGet env csvUrl
    let _ ← liftE (getProp env.engine response "data")
    browserStep env "new Blob"
    browserStep env "window.URL.createObjectURL"
    browserStep env "document.createElement"
    browserStep env "link.setAttribute download campus_room_report.csv"
    browserStep env "document.body.appendChild"
    browserStep env "link.click"
    browserStep env "window.URL.revokeObjectURL"
    browserStep env "document.body.removeChild"
  catch _ =>
    console "Error generating CSV:"
    alert "Failed to download CSV report. Please try again."
  finally
    setExportLoading false

/-- Method `v.toFixed(1)`, which only numbers have.  On the integers of the model below
10^21 in absolute value the result is the decimal digits followed by ".0"; the rounding
of fractions and the exponent form of larger numbers are outside the model. -/
def toFixed1 (eng : Engine) (callee : String) (v : JsVal) : Except JsError JsVal :=
  match v with
  | .num n => .ok (.str (toString n ++ ".0"))
  | .undefined => .error (errorWith (eng.readOfNullish v "toFixed"))
  | .null => .error (errorWith (eng.readOfNullish v "toFixed"))
  | _ => .error (errorWith (eng.notAFunction callee))

/-- One row `{ Metric: label, Value: value || 0 }` of the statistics sheet. -/
def metricRow (label : String) (value : JsVal) : JsVal :=
  .obj [("Metric", .str label), ("Value", jsOr value (.num 0))]

/-- The array `statsData` (lines 246-258). -/
def statsData (eng : Engine) (reportData : JsVal) : Except JsError (List JsVal) := do
  let statistics ← getProp eng reportData "statistics"
  let usersByRole := getPropOpt statistics "usersByRole"
  pure [
    metricRow "Total Reservations" (getPropOpt statistics "totalReservations"),
    metricRow "Approved Reservations" (getPropOpt statistics "approvedReservations"),
    metricRow "Pending Reservations" (getPropOpt statistics "pendingReservations"),
    metricRow "Professor Reservations" (getPropOpt statistics "professorReservations"),
    metricRow "Student Reservations" (getPropOpt statistics "studentReservations"),
    metricRow "Total Classrooms" (getPropOpt statistics "totalClassrooms"),
    metricRow "Total Users" (getPropOpt statistics "totalUsers"),
    metricRow "Admin Users" (getPropOpt usersByRole "adminCount"),
    metricRow "Professor Users" (getPropOpt usersByRole "professorCount"),
    metricRow "Student Users" (getPropOpt usersByRole "studentCount"),
    metricRow "Other Users" (getPropOpt usersByRole "otherCount")]

/-- Callback building a row of the "Popular Rooms" sheet (lines 264-271). -/
def excelRoomRow (eng : Engine) (room : JsVal) : Except JsError JsVal := do
  let name ← getProp eng room "room"
  let count ← getProp eng room "count"
  let percentage ← getProp eng room "percentage"
  let usage ← toFixed1 eng "(room.percentage || 0).toFixed" (jsOr percentage (.num 0))
  let roleData ← getProp eng room "roleData"
  pure (.obj [("Room", jsOr name (.str "")), ("Reservations", jsOr count (.num 0)),
    ("Usage %", usage),
    ("By Professors", jsOr (getPropOpt roleData "professor") (.num 0)),
    ("By Students", jsOr (getPropOpt roleData "student") (.num 0)),
    ("By Admins", jsOr (getPropOpt roleData "admin") (.num 0))])

/-- Callback building a row of the "Active Users" sheet (lines 275-279). -/
def excelUserRow (eng : Engine) (user : JsVal) : Except JsError JsVal := do
  let userName ← getProp eng user "userName"
  let role ← getProp eng user "role"
  let count ← getProp eng user "count"
  pure (.obj [("User", jsOr userName (.str "Unknown")), ("Role", jsOr role (.str "Unknown")),
    ("Reservations", jsOr count (.num 0))])

/-- Callback building a row of the "Monthly Activity" sheet (lines 283-289). -/
def excelMonthRow (eng : Engine) (month : JsVal) : Except JsError JsVal := do
  let label ← getProp eng month "month"
  let professorCount ← getProp eng month "professorCount"
  let studentCount ← getProp eng month "studentCount"
  let adminCount ← getProp eng month "adminCount"
  let total ← getProp eng month "total"
  pure (.obj [("Month", jsOr label (.str "")),
    ("Professor Reservations", jsOr professorCount (.num 0)),
    ("Student Reservations", jsOr studentCount (.num 0)),
    ("Admin Reservations", definedOrZero adminCount),
    ("Total", jsOr total (.num 0))])

/-- Rows `(reportData.name || []).map(row)` of one sheet. -/
def sheetRows (eng : Engine) (reportData : JsVal) (name : String)
    (row : JsVal → Except JsError JsVal) : Except JsError (List JsVal) := do
  let list ← getProp eng reportData name
  match ← jsMap eng ("(reportData." ++ name ++ " || []).map") (jsOr list (.arr [])) row with
  | .arr rows => pure rows
  | _ => pure []

/-- Hand the finished workbook to `XLSX.writeFile`. -/
def writeFile (env : Env) (name : String) (wb : List (String × List JsVal)) : Eff Unit := do
  browserStep env "XLSX.writeFile"
  fun w => (.ok (), { w with written := w.written ++ [(name, wb)] })

/-- Handler `generateExcel`. -/
def generateExcel (env : Env) : Eff Unit := do
  try
    setExportLoading true
    browserStep env "import xlsx"
    let response ←
      if env.hasMethod "getReportsData" then apiCall env "getReportsData"
      else axiosGet env reportsUrl
    let reportData ← liftE (getProp env.engine response "data")
    browserStep env "XLSX.utils.book_new"
    let stats ← liftE (statsData env.engine reportData)
    browserStep env "XLSX.utils.json_to_sheet"
    browserStep env "XLSX.utils.book_append_sheet"
    let rooms ← liftE (sheetRows env.engine reportData "popularRooms" (excelRoomRow env.engine))
    browserStep env "XLSX.utils.json_to_sheet"
    browserStep env "XLSX.utils.book_append_sheet"
    let users ← liftE (sheetRows env.engine reportData "activeUsers" (excelUserRow env.engine))
    browserStep env "XLSX.utils.json_to_sheet"
    browserStep env "XLSX.utils.book_append_sheet"
    let activity ←
      liftE (sheetRows env.engine reportData "monthlyActivity" (excelMonthRow env.engine))
    browserStep env "XLSX.utils.json_to_sheet"
    browserStep env "XLSX.utils.book_append_sheet"
    writeFile env "campus_room_report.xlsx"
      [("Statistics", stats), ("Popular Rooms", rooms), ("Active Users", users),
        ("Monthly Activity", activity)]
  catch _ =>
    console "Error generating Excel report:"
    alert "Failed to generate Excel report. Please try again."
  finally
    setExportLoading false

/-- Handler `generatePDF`. -/
def generatePDF (env : Env) : Eff Unit := do
  try
    setExportLoading true
    let response ←
      if env.hasMethod "getPdfData" then apiCall env "getPdfData" else axiosGet env pdfDataUrl
    let pdfData ← liftE (getProp env.engine response "data")
    setPDFData pdfData
    setShowPDFReport true
  catch _ =>
    console "Error generating PDF report:"
    alert "Failed to generate PDF report. Please try again."
  finally
    setExportLoading false

/-- Handler `closePDFReport`. -/
def closePDFReport : Eff Unit := do
  setShowPDFReport false
  setPDFData .null

/-! ## What the view renders from state (source lines 397-545) -/

/-- A statistics card `{stats.key || 0}` (lines 397-436). -/
def statCell (v : ViewState) (key : String) : JsVal := jsOr (field v.stats key) (.num 0)

/-- A user count `{stats.usersByRole?.key || 0}` (line 438). -/
def roleCountCell (v : ViewState) (key : String) : JsVal :=
  jsOr (getPropOpt (field v.stats "usersByRole") key) (.num 0)

/-- The reservations cell `{room.count}` of a popular room (line 466). -/
def roomCountCell (room : JsVal) : JsVal := field room "count"

/-- The reservations cell `{user.count}` of an active user (line 508). -/
def userCountCell (user : JsVal) : JsVal := field user "count"

/-- The admin cell `{month.adminCount !== undefined ? month.adminCount : 0}` (line 542). -/
def monthAdminCell (month : JsVal) : JsVal := definedOrZero (field month "adminCount")

/-! ## Vocabulary of the statements -/

/-- Whether `k` is an own field of the record `v`. -/
def hasField (v : JsVal) (k : String) : Bool :=
  match v with
  | .obj fs => (lookupField k fs).isSome
  | _ => false

/-- A payload section that `processReportData` handles without throwing: a falsy value
(the section is skipped) or an array none of whose records is null or undefined. -/
def recordsOk : JsVal → Bool
  | .arr xs => xs.all fun x => !nullish x
  | v => !truthy v

/-- The payloads on which `processReportData` returns normally. -/
def payloadOk (d : JsVal) : Bool :=
  !nullish d && recordsOk (field d "popularRooms") && recordsOk (field d "activeUsers") &&
    recordsOk (field d "monthlyActivity")

/-- The record that `roomWithDefaults` returns for a room that is not null or undefined. -/
def roomDefaults (room : JsVal) : JsVal :=
  .obj (setField "roleData" (jsOr (field room "roleData") defaultRoleData)
    (setField "percentage" (jsOr (field room "percentage") (.num 0)) (spread room)))

/-- The record that `userWithDefaults` returns for a user that is not null or undefined. -/
def userDefaults (user : JsVal) : JsVal :=
  .obj (setField "count" (jsOr (field user "count") (.num 0))
    (setField "role" (jsOr (field user "role") (.str "Unknown Role"))
      (setField "userName" (jsOr (field user "userName") (.str "Unknown User")) (spread user))))

/-- The record that `monthWithDefaults` returns for a month that is not null or undefined. -/
def monthDefaults (month : JsVal) : JsVal :=
  .obj (setField "total" (jsOr (field month "total") (.num 0))
    (setField "adminCount" (definedOrZero (field month "adminCount"))
      (setField "studentCount" (jsOr (field month "studentCount") (.num 0))
        (setField "professorCount" (jsOr (field month "professorCount") (.num 0))
          (spread month)))))

/-- New value of a list slice: the mapped records of an array section, the old value otherwise. -/
def sliceAfter (g : JsVal → JsVal) (old : JsVal) : JsVal → JsVal
  | .arr xs => .arr (xs.map g)
  | _ => old

/-- View state after `processReportData` on a payload it accepts. -/
def viewAfter (s : ViewState) (d : JsVal) : ViewState :=
  { s with
    stats := if truthy (field d "statistics") then field d "statistics" else s.stats
    popularRooms := sliceAfter roomDefaults s.popularRooms (field d "popularRooms")
    mostActiveUsers := sliceAfter userDefaults s.mostActiveUsers (field d "activeUsers")
    monthlyActivity := sliceAfter monthDefaults s.monthlyActivity (field d "monthlyActivity") }

/-- View state after `processReportData` on any payload: the sections are handled in
order, and a throw (a null or undefined payload, a section that is not a list, a null or
undefined record) leaves the slices of that section and of the later ones as they were. -/
def processedView (s : ViewState) (d : JsVal) : ViewState :=
  if nullish d then s else
  let s1 := { s with
    stats := if truthy (field d "statistics") then field d "statistics" else s.stats }
  if recordsOk (field d "popularRooms") then
    let s2 := { s1 with
      popularRooms := sliceAfter roomDefaults s.popularRooms (field d "popularRooms") }
    if recordsOk (field d "activeUsers") then
      let s3 := { s2 with
        mostActiveUsers := sliceAfter userDefaults s.mostActiveUsers (field d "activeUsers") }
      if recordsOk (field d "monthlyActivity") then
        { s3 with
          monthlyActivity :=
            sliceAfter monthDefaults s.monthlyActivity (field d "monthlyActivity") }
      else s3
    else s2
  else s1

/-- The quote character used inside engine messages. -/
def quoteMark : String := String.singleton (Char.ofNat 39)

/-- Name of a nullish value inside an engine message. -/
def nullishName : JsVal → String
  | .null => "null"
  | _ => "undefined"

/-- TypeError wording of the V8 engine. -/
def v8 : Engine where
  readOfNullish := fun v k =>
    "Cannot read properties of " ++ nullishName v ++ " (reading " ++ quoteMark ++ k ++ quoteMark ++ ")"
  notAFunction := fun callee => callee ++ " is not a function"

/-- A response object `{ data: d }`. -/
def responseWith (d : JsVal) : JsVal := .obj [("data", d)]

/-- An environment without API client in which every request fails with a network error. -/
def offlineEnv : Env where
  engine := v8
  hasMethod := fun _ => false
  api := fun _ _ => .error (errorWith "Network Error")
  httpGet := fun _ _ => .error (errorWith "Network Error")
  httpPost := fun _ _ => .error (errorWith "Network Error")
  browser := fun _ _ => .ok ()

/-- The world of a freshly mounted component. -/
def initialWorld : World := ⟨initialView, 0, [], []⟩

/-- The record `fs` with `adminCount: 0` written out. -/
def withAdminZero (fs : List (String × JsVal)) : JsVal :=
  .obj (setField "adminCount" (.num 0) fs)

/-- The payload `dfs` whose `monthlyActivity` list has its record `i` replaced by `r`. -/
def withMonth (dfs : List (String × JsVal)) (months : List JsVal) (i : Nat) (r : JsVal) : JsVal :=
  .obj (setField "monthlyActivity" (.arr (months.set i r)) dfs)

/-- Optional fields of a popular room with their documented defaults. -/
def roomOptionalFields : List (String × JsVal) :=
  [("percentage", .num 0), ("roleData", defaultRoleData)]

/-- Optional fields of an active user with their documented defaults. -/
def userOptionalFields : List (String × JsVal) :=
  [("userName", .str "Unknown User"), ("role", .str "Unknown Role"), ("count", .num 0)]

/-- Optional fields of a monthly record with their documented defaults. -/
def monthOptionalFields : List (String × JsVal) :=
  [("professorCount", .num 0), ("studentCount", .num 0), ("adminCount", .num 0),
    ("total", .num 0)]

/-- The monthly fields that the source defaults with `|| 0`. -/
def monthOrFields : List (String × JsVal) :=
  [("professorCount", .num 0), ("studentCount", .num 0), ("total", .num 0)]

/-- Every field of `table` that is absent, null or undefined in `r` holds its default in `r'`. -/
def DefaultsFilled (table : List (String × JsVal)) (r r' : JsVal) : Prop :=
  ∀ p ∈ table, nullish (field r p.1) = true → field r' p.1 = p.2

/-- The slice `out` is a list as long as `input` whose record `i` fills the defaults of
`table` for record `i` of `input`. -/
def SectionDefaulted (table : List (String × JsVal)) (input : List JsVal) (out : JsVal) : Prop :=
  ∃ rs', out = .arr rs' ∧ rs'.length = input.length ∧
    ∀ (i : Nat) (r r' : JsVal), input[i]? = some r → rs'[i]? = some r' → DefaultsFilled table r r'

/-- A payload with one monthly record whose `adminCount` is null. -/
def nullAdminPayload : JsVal :=
  .obj [("monthlyActivity", .arr [.obj [("month", .str "Jan"), ("adminCount", .null)]])]

/-- The test `v !== undefined` of line 145. -/
def isDefined : JsVal → Bool
  | .undefined => false
  | _ => true

/-- The optional fields of a popular room, each with the test under which the callback
keeps the value of the input record (lines 119-120: the left operand of `||`). -/
def roomKeepTests : List (String × (JsVal → Bool)) :=
  [("percentage", truthy), ("roleData", truthy)]

/-- The optional fields of an active user with their keep tests (lines 130-132). -/
def userKeepTests : List (String × (JsVal → Bool)) :=
  [("userName", truthy), ("role", truthy), ("count", truthy)]

/-- The optional fields of a monthly record with their keep tests (lines 143-146):
truthiness for the fields defaulted with `||`, `!== undefined` for `adminCount`. -/
def monthKeepTests : List (String × (JsVal → Bool)) :=
  [("professorCount", truthy), ("studentCount", truthy), ("adminCount", isDefined),
    ("total", truthy)]

/-- The records whose own properties `spread` lists exactly: every value except a string
with a character outside the Basic Multilingual Plane, which JavaScript spreads as two
surrogate code units. -/
def spreadExact : JsVal → Bool
  | .str s => s.data.all fun c => decide (c.toNat < 65536)
  | _ => true

/-- The slice `out` is a list as long as `input`, in the same order: its record `i` is an
object in which every key that is not an optional field holds what record `i` of `input`
holds under that key (nothing, when the input record has no such property), and every
optional field whose input value passes its keep test holds that input value. -/
def CarriedOver (tests : List (String × (JsVal → Bool))) (input : List JsVal)
    (out : JsVal) : Prop :=
  ∃ rs', out = .arr rs' ∧ rs'.length = input.length ∧
    ∀ (i : Nat) (r : JsVal), input[i]? = some r →
      ∃ fs', rs'[i]? = some (.obj fs') ∧
        (spreadExact r = true → ∀ k, k ∉ tests.map Prod.fst →
          lookupField k fs' = lookupField k (spread r)) ∧
        ∀ p ∈ tests, p.2 (field r p.1) = true → lookupField p.1 fs' = some (field r p.1)

/-- A payload with all four sections, used to exercise the normaliser. -/
def samplePayload : JsVal :=
  .obj [("statistics", .obj [("totalReservations", .num 5)]),
    ("popularRooms", .arr [.obj [("room", .str "A")], .obj [("room", .str "B"), ("count", .num 3)]]),
    ("activeUsers", .arr [.obj [("userId", .num 7)]]),
    ("monthlyActivity", .arr [.obj [("month", .str "Jan"), ("total", .num 2)]])]

/-- The count fields of the `stats` state (source lines 10-18). -/
def statisticsFields : List String :=
  ["totalReservations", "approvedReservations", "pendingReservations", "rejectedReservations",
    "professorReservations", "studentReservations", "totalClassrooms", "totalStudyRooms",
    "totalUsers"]

/-- The stats in state hold 0 for each field missing from `statistics` and the value of
`statistics` for each field it has. -/
def StatsDefaulted (statistics : JsVal) (v : ViewState) : Prop :=
  ∀ k ∈ statisticsFields,
    (hasField statistics k = false → field v.stats k = .num 0) ∧
    (hasField statistics k = true → field v.stats k = field statistics k)

/-- The payload of the scenario in the specification:
`{statistics: {totalReservations: 5}, popularRooms: [{room: "A"}]}`. -/
def scenarioPayload : JsVal :=
  .obj [("statistics", .obj [("totalReservations", .num 5)]),
    ("popularRooms", .arr [.obj [("room", .str "A")]])]

/-- A payload whose statistics lack `approvedReservations`, whose room lacks `count` and
whose month carries `adminCount: null`. -/
def gapsPayload : JsVal :=
  .obj [("statistics", .obj [("totalReservations", .num 5)]),
    ("popularRooms", .arr [.obj [("room", .str "A")]]),
    ("monthlyActivity", .arr [.obj [("month", .str "Jan"), ("adminCount", .null)]])]

/-- Every number the view takes from state is neither null nor undefined. -/
def RenderedNumbersPresent (v : ViewState) : Prop :=
  (∀ k ∈ statisticsFields, nullish (field v.stats k) = false) ∧
  (∀ rs, v.popularRooms = .arr rs → ∀ r ∈ rs,
    nullish (field r "count") = false ∧ nullish (field r "percentage") = false) ∧
  (∀ us, v.mostActiveUsers = .arr us → ∀ u ∈ us, nullish (field u "count") = false) ∧
  (∀ ms, v.monthlyActivity = .arr ms → ∀ m ∈ ms,
    nullish (field m "professorCount") = false ∧ nullish (field m "studentCount") = false ∧
    nullish (field m "adminCount") = false ∧ nullish (field m "total") = false)

/-- The numbers that normalisation does guarantee in the list slices of the state. -/
def DefaultedNumbersPresent (v : ViewState) : Prop :=
  (∀ rs, v.popularRooms = .arr rs → ∀ r ∈ rs, nullish (field r "percentage") = false) ∧
  (∀ us, v.mostActiveUsers = .arr us → ∀ u ∈ us, nullish (field u "count") = false) ∧
  (∀ ms, v.monthlyActivity = .arr ms → ∀ m ∈ ms,
    nullish (field m "professorCount") = false ∧ nullish (field m "studentCount") = false ∧
    field m "adminCount" ≠ .undefined ∧ nullish (field m "total") = false)

/-- A view update that leaves every flag of the component alone. -/
def KeepsFlags (f : ViewState → ViewState) : Prop :=
  ∀ s, (f s).loading = s.loading ∧ (f s).error = s.error ∧
    (f s).exportLoading = s.exportLoading ∧ (f s).refreshTrigger = s.refreshTrigger ∧
    (f s).showPDFReport = s.showPDFReport ∧ (f s).pdfData = s.pdfData

/-- A computation whose outcome and log do not depend on the world it starts in: it makes
no request, writes no file, only logs to the console, and updates the data slices of the
view by a fixed function. -/
structure Uniform {α : Type} (m : Eff α) : Prop where
  run : ∃ (r : Except JsError α) (f : ViewState → ViewState) (l : List Event),
    (∀ w : World, m w = (r, { w with view := f w.view, trace := w.trace ++ l })) ∧
    (∀ e ∈ l, ∃ msg, e = Event.console msg) ∧ KeepsFlags f

/-- Whether the fallback request, the request number `n` of the session, throws. -/
def fallbackRequestFails (env : Env) (n : Nat) : Bool :=
  match env.httpGet n reportsUrl with
  | .error _ => true
  | .ok _ => false

/-- Whether the fallback attempt ends in a throw: the request number `n` throws, or its
response cannot be read, or its data cannot be processed. -/
def fallbackFails (env : Env) (n : Nat) : Bool :=
  match env.httpGet n reportsUrl with
  | .error _ => true
  | .ok response => nullish response || !payloadOk (field response "data")

/-- In the run from `w`, an error message is stored only if the fallback request threw. -/
def ErrorOnlyAfterFailedRequest (env : Env) (w : World) : Prop :=
  ∀ l, (fetchReportData env w).2.trace = w.trace ++ l →
    ∀ msg, Event.setError (some msg) ∈ l → fallbackRequestFails env (w.requests + 1) = true

/-- An API client whose `getReportsData` throws, with a reports endpoint that answers
with the body `null`. -/
def nullBodyEnv : Env where
  engine := v8
  hasMethod := fun _ => true
  api := fun _ _ => .error (errorWith "Network Error")
  httpGet := fun _ _ => .ok (responseWith .null)
  httpPost := fun _ _ => .ok (responseWith .null)
  browser := fun _ _ => .ok ()

/-- The statements `const reportData = response.data; processReportData(reportData);`
that follow each request of `fetchReportData` (lines 62-63, 72-73, 85-86). -/
def consume (env : Env) (response : JsVal) : Eff Unit := do
  let reportData ← liftE (getProp env.engine response "data")
  processReportData env reportData

/-- Outcome of the first request of `fetchReportData`, the request number `n`: the API
client when it exposes `getReportsData`, the direct request otherwise. -/
def primaryOutcome (env : Env) (n : Nat) : Outcome :=
  if env.hasMethod "getReportsData" then env.api n "getReportsData"
  else env.httpGet n reportsUrl

/-- Result of an attempt whose request ended in `r`: the thrown error of the request, or
the result of reading and processing the response. -/
def attemptResult (env : Env) (r : Outcome) : Except JsError Unit :=
  match r with
  | .error e => .error e
  | .ok response => (consume env response ⟨initialView, 0, [], []⟩).1

/-- The first step of every run of `fetchReportData`: its opening `console.log`. -/
def fetchStarted : Event := .console "⚠️ About to fetch report data"

/-- The `try` block of `fetchReportData` (lines 52-74). -/
def fetchTry (env : Env) : Eff Unit := do
  console "⚠️ About to fetch report data"
  setLoading true
  setError none
  if env.hasMethod "getReportsData" then
    console "Using API.reportsAPI for data fetch"
    let response ← apiCall env "getReportsData"
    console "✅ Response received:"
    let reportData ← liftE (getProp env.engine response "data")
    processReportData env reportData
  else
    console "API.reportsAPI not available, using direct axios call"
    let response ← axiosGet env reportsUrl
    console "✅ Response received from direct axios call:"
    let reportData ← liftE (getProp env.engine response "data")
    processReportData env reportData

/-- The `catch (error)` block of `fetchReportData` (lines 76-99). -/
def fetchCatch (env : Env) (error : JsError) : Eff Unit := do
  console "❌ Error fetching report data:"
  (do
    try
      console "Attempting direct axios request as fallback"
      let response ← axiosGet env reportsUrl
      let reportData ← liftE (getProp env.engine response "data")
      processReportData env reportData
      setError none
    catch _ =>
      console "Fallback request also failed:"
      let message ← liftE (loadErrorMessage env.engine error)
      setError (some message))

/-- Outcome of the regenerate request of `handleRegenerate`, the request number `n`: the
API client when it exposes `regenerateReports`, the direct POST otherwise. -/
def regenerateOutcome (env : Env) (n : Nat) : Outcome :=
  if env.hasMethod "regenerateReports" then env.api n "regenerateReports"
  else env.httpPost n regenerateUrl

/-- The run of `handleRegenerate` from `w` invokes `fetchReportData`. -/
def FetchInvoked (env : Env) (w : World) : Prop :=
  ∃ l, (handleRegenerate env w).2.trace = w.trace ++ l ∧ fetchStarted ∈ l

/-- Outcome of the transport call of an export, the request number `n`: the API client
when it exposes `method`, the direct GET of `url` otherwise. -/
def exportOutcome (env : Env) (method url : String) (n : Nat) : Outcome :=
  if env.hasMethod method then env.api n method else env.httpGet n url

/-- An API client and an endpoint that answer every request with the payload `d`; every
browser and library step works. -/
def servingEnv (d : JsVal) : Env where
  engine := v8
  hasMethod := fun _ => true
  api := fun _ _ => .ok (responseWith d)
  httpGet := fun _ _ => .ok (responseWith d)
  httpPost := fun _ _ => .ok (responseWith d)
  browser := fun _ _ => .ok ()

/-- Rows of the sheet `name` in the workbook last handed to `XLSX.writeFile`. -/
def writtenSheet (w : World) (name : String) : List JsVal :=
  match w.written.getLast? with
  | some (_, wb) => (wb.lookup name).getD []
  | none => []

/-- A payload with one active user that has a count but neither name nor role. -/
def namelessUserPayload : JsVal :=
  .obj [("activeUsers", .arr [.obj [("count", .num 3)]])]

/-- The exported rows agree with the normalised users: same length, and row `i` has
`User`, `Role` and `Reservations` equal to `userName`, `role` and `count` of user `i`. -/
def ExcelUsersAgree (rows : List JsVal) (users : JsVal) : Prop :=
  ∃ us, users = .arr us ∧ rows.length = us.length ∧
    ∀ (i : Nat) (row u : JsVal), rows[i]? = some row → us[i]? = some u →
      field row "User" = field u "userName" ∧ field row "Role" = field u "role" ∧
        field row "Reservations" = field u "count"

/-- The view state that `processReportData` leaves when run on `d` in the world `w`. -/
def viewLeft (env : Env) (d : JsVal) (w : World) : ViewState :=
  (processReportData env d w).2.view

/-- The world after an earlier fetch has delivered `samplePayload`. -/
def fetchedWorld : World := (processReportData offlineEnv samplePayload initialWorld).2

/-- A payload whose room list holds a null record and whose user list is empty. -/
def nullRoomPayload : JsVal :=
  .obj [("popularRooms", .arr [.null]), ("activeUsers", .arr [])]

/-- A payload with an empty room list and nothing else. -/
def emptyRoomsPayload : JsVal := .obj [("popularRooms", .arr [])]

/-- A slice changes only for a present section: a section that is absent, null or
undefined keeps the slice, and a changed slice means a truthy section. -/
def SliceKept (part old new : JsVal) : Prop :=
  (nullish part = true → new = old) ∧ (new ≠ old → truthy part = true)

/-- Every section that is a present empty list has its slice replaced by the empty list. -/
def EmptyListsReplace (env : Env) (d : JsVal) (w : World) : Prop :=
  (field d "popularRooms" = .arr [] → (viewLeft env d w).popularRooms = .arr []) ∧
  (field d "activeUsers" = .arr [] → (viewLeft env d w).mostActiveUsers = .arr []) ∧
  (field d "monthlyActivity" = .arr [] → (viewLeft env d w).monthlyActivity = .arr [])

/-- The text that the inner catch of `fetchReportData` appends for the caught value
`error`, in the cases where reading it does not throw: the value is not null or
undefined, and its `message` is a string (that string, or "Unknown error" when it is
empty), an array (its string form), or absent or otherwise falsy ("Unknown error").
In the remaining cases, a caught null or undefined and a `message` that is `true`, a
nonzero number or an object, line 94 throws. -/
def messageText (error : JsVal) : Option String :=
  if nullish error then none
  else
    match field error "message" with
    | .str s => some (if s = "" then "Unknown error" else s)
    | .arr xs => some (toJsString (.arr xs))
    | m => if truthy m then none else some "Unknown error"

/-- The error state shows a load failure: a message that begins with
"Failed to load report data: ". -/
def ShowsLoadFailure (v : ViewState) : Prop :=
  ∃ rest, v.error = some ("Failed to load report data: " ++ rest)

/-- An API client whose `getReportsData` rejects with `null`, with the network down. -/
def nullRejectEnv : Env where
  engine := v8
  hasMethod := fun _ => true
  api := fun _ _ => .error .null
  httpGet := fun _ _ => .error (errorWith "Network Error")
  httpPost := fun _ _ => .error (errorWith "Network Error")
  browser := fun _ _ => .ok ()

/-- The `try` block of `handleRegenerate` (lines 159-170). -/
def regenerateTry (env : Env) : Eff Unit := do
  setLoading true
  if env.hasMethod "regenerateReports" then
    let _ ← apiCall env "regenerateReports"
  else
    let _ ← axiosPost env regenerateUrl
  fetchReportData env

/-- The `catch (error)` block of `handleRegenerate` (lines 171-174). -/
def regenerateCatch (env : Env) (error : JsVal) : Eff Unit := do
  console "Error regenerating reports:"
  let message ← liftE (regenerateErrorMessage env.engine error)
  setError (some message)

/-! ## Running the monad -/

theorem run_pure {α : Type} (a : α) (w : World) : (pure a : Eff α) w = (.ok a, w) := rfl

theorem run_bind {α β : Type} (m : Eff α) (f : α → Eff β) (w : World) :
    (m >>= f) w = match m w with
      | (.ok a, w1) => f a w1
      | (.error e, w1) => (.error e, w1) := rfl
theorem run_liftE {α : Type} (r : Except JsError α) (w : World) : liftE r w = (r, w) := rfl
theorem run_console (msg : String) (w : World) :
    console msg w = (.ok (), { w with trace := w.trace ++ [.console msg] }) := rfl
theorem run_modifyView (f : ViewState → ViewState) (w : World) :
    modifyView f w = (.ok (), { w with view := f w.view }) := rfl

theorem run_tryCatch {α : Type} (m : Eff α) (h : JsError → Eff α) (w : World) :
    (tryCatch m h) w = match m w with
      | (.ok a, w1) => (.ok a, w1)
      | (.error e, w1) => h e w1 := rfl

theorem run_tryFinally {α β : Type} (m : Eff α) (f : Eff β) (w : World) :
    (tryFinally m f) w = match m w with
      | (.ok a, w1) =>
        (match f w1 with
        | (.ok _, w2) => (.ok a, w2)
        | (.error e, w2) => (.error e, w2))
      | (.error e, w1) =>
        (match f w1 with
        | (.ok _, w2) => (.error e, w2)
        | (.error e2, w2) => (.error e2, w2)) := by
  show (Eff.bind (Eff.tryFinally m fun _ => f) _) w = _
  unfold Eff.bind Eff.tryFinally
  rcases m w with ⟨_ | _, w1⟩ <;> simp only [] <;> rcases f w1 with ⟨_ | _, w2⟩ <;> rfl

theorem run_setLoading (b : Bool) (w : World) :
    setLoading b w = (.ok (), { w with view := { w.view with loading := b },
                                       trace := w.trace ++ [.setLoading b] }) := rfl
theorem run_setError (b : Option String) (w : World) :
    setError b w = (.ok (), { w with view := { w.view with error := b },
                                     trace := w.trace ++ [.setError b] }) := rfl
theorem run_setExportLoading (b : Bool) (w : World) :
    setExportLoading b w = (.ok (), { w with view := { w.view with exportLoading := b },
                                             trace := w.trace ++ [.setExportLoading b] }) := rfl
theorem run_alert (msg : String) (w : World) :
    alert msg w = (.ok (), { w with trace := w.trace ++ [.alert msg] }) := rfl
theorem run_apiCall (env : Env) (method : String) (w : World) :
    apiCall env method w = (env.api w.requests method,
      { w with requests := w.requests + 1, trace := w.trace ++ [.apiCall method] }) := rfl
theorem run_axiosGet (env : Env) (url : String) (w : World) :
    axiosGet env url w = (env.httpGet w.requests url,
      { w with requests := w.requests + 1, trace := w.trace ++ [.httpGet url] }) := rfl
theorem run_axiosPost (env : Env) (url : String) (w : World) :
    axiosPost env url w = (env.httpPost w.requests url,
      { w with requests := w.requests + 1, trace := w.trace ++ [.httpPost url] }) := rfl

/-! ## Records and fields -/

theorem lookupField_setField_same (k : String) (v : JsVal) (fs : List (String × JsVal)) :
    lookupField k (setField k v fs) = some v := by
  induction fs with
  | nil => simp [setField, lookupField]
  | cons p fs ih =>
    obtain ⟨k', v'⟩ := p
    by_cases h : k' = k <;> simp [setField, lookupField, h, ih]

theorem lookupField_setField_ne {k k' : String} (h : k' ≠ k) (v : JsVal)
    (fs : List (String × JsVal)) : lookupField k (setField k' v fs) = lookupField k fs := by
  induction fs with
  | nil => simp [setField, lookupField, h]
  | cons p fs ih =>
    obtain ⟨k2, v2⟩ := p
    by_cases h2 : k2 = k' <;> by_cases h3 : k2 = k <;> simp_all [setField, lookupField]

theorem getProp_ok (eng : Engine) {v : JsVal} (k : String) (h : nullish v = false) :
    getProp eng v k = .ok (field v k) := by simp [getProp, h]

theorem roomWithDefaults_ok (eng : Engine) {r : JsVal} (h : nullish r = false) :
    roomWithDefaults eng r = .ok (roomDefaults r) := by
  simp [roomWithDefaults, getProp_ok eng _ h, roomDefaults, bind, Except.bind, pure, Except.pure]

theorem userWithDefaults_ok (eng : Engine) {r : JsVal} (h : nullish r = false) :
    userWithDefaults eng r = .ok (userDefaults r) := by
  simp [userWithDefaults, getProp_ok eng _ h, userDefaults, bind, Except.bind, pure, Except.pure]

theorem monthWithDefaults_ok (eng : Engine) {r : JsVal} (h : nullish r = false) :
    monthWithDefaults eng r = .ok (monthDefaults r) := by
  simp [monthWithDefaults, getProp_ok eng _ h, monthDefaults, bind, Except.bind, pure, Except.pure]

theorem roomWithDefaults_error (eng : Engine) {r : JsVal} (h : nullish r = true) :
    ∃ e, roomWithDefaults eng r = .error e := by
  simp [roomWithDefaults, getProp, h, bind, Except.bind]

theorem userWithDefaults_error (eng : Engine) {r : JsVal} (h : nullish r = true) :
    ∃ e, userWithDefaults eng r = .error e := by
  simp [userWithDefaults, getProp, h, bind, Except.bind]

theorem monthWithDefaults_error (eng : Engine) {r : JsVal} (h : nullish r = true) :
    ∃ e, monthWithDefaults eng r = .error e := by
  simp [monthWithDefaults, getProp, h, bind, Except.bind]

theorem mapRecords_ok {f : JsVal → Except JsError JsVal} {g : JsVal → JsVal}
    (hf : ∀ x, nullish x = false → f x = .ok (g x)) :
    ∀ xs : List JsVal, (xs.all fun x => !nullish x) = true → mapRecords f xs = .ok (xs.map g)
  | [], _ => rfl
  | x :: xs, h => by
    simp only [List.all_cons, Bool.and_eq_true, Bool.not_eq_true'] at h
    simp [mapRecords, hf x h.1, mapRecords_ok hf xs h.2]

theorem mapRecords_error {f : JsVal → Except JsError JsVal}
    (hf : ∀ x, nullish x = true → ∃ e, f x = .error e) :
    ∀ xs : List JsVal, (xs.all fun x => !nullish x) = false → ∃ e, mapRecords f xs = .error e
  | [], h => by simp at h
  | x :: xs, h => by
    rcases hx : f x with e | y
    · exact ⟨e, by simp [mapRecords, hx]⟩
    · have hxn : nullish x = false := by
        cases hn : nullish x
        · rfl
        · obtain ⟨e, he⟩ := hf x hn
          rw [he] at hx
          cases hx
      have h2 : (xs.all fun x => !nullish x) = false := by
        simpa [List.all_cons, hxn] using h
      obtain ⟨e, he⟩ := mapRecords_error hf xs h2
      exact ⟨e, by simp [mapRecords, hx, he]⟩

theorem jsMap_ok (eng : Engine) (callee : String) {f : JsVal → Except JsError JsVal}
    {g : JsVal → JsVal} (hf : ∀ x, nullish x = false → f x = .ok (g x)) (old : JsVal)
    {v : JsVal} (ht : truthy v = true) (hv : recordsOk v = true) :
    jsMap eng callee v f = .ok (sliceAfter g old v) := by
  cases v <;> simp_all [recordsOk, truthy, jsMap, sliceAfter]
  rename_i xs
  rw [mapRecords_ok hf xs (by simpa using hv)]

theorem jsMap_error (eng : Engine) (callee : String) {f : JsVal → Except JsError JsVal}
    (hf : ∀ x, nullish x = true → ∃ e, f x = .error e)
    {v : JsVal} (hv : recordsOk v = false) :
    ∃ e, jsMap eng callee v f = .error e := by
  cases v <;> simp_all [recordsOk, truthy, jsMap]
  rename_i xs
  obtain ⟨e, he⟩ := mapRecords_error hf xs (by simpa using hv)
  exact ⟨e, by simp [he]⟩

theorem sliceAfter_falsy (g : JsVal → JsVal) (old : JsVal) {v : JsVal} (h : truthy v = false) :
    sliceAfter g old v = old := by
  cases v <;> simp_all [truthy, sliceAfter]

theorem recordsOk_truthy_false {v : JsVal} (h : recordsOk v = false) : truthy v = true := by
  cases v <;> simp_all [recordsOk, truthy]

/-! ## processReportData: normal return and throw -/

set_option maxRecDepth 4000 in
theorem processReportData_ok (env : Env) (d : JsVal) (w : World) (h : payloadOk d = true) :
    (processReportData env d w).1 = .ok () ∧
      (processReportData env d w).2.view = viewAfter w.view d := by
  simp only [payloadOk, Bool.and_eq_true, Bool.not_eq_true'] at h
  obtain ⟨⟨⟨hn, h1⟩, h2⟩, h3⟩ := h
  have e1 := fun (ht : truthy (field d "popularRooms") = true) =>
    jsMap_ok env.engine "reportData.popularRooms.map"
      (fun x hx => roomWithDefaults_ok env.engine hx) w.view.popularRooms ht h1
  have e2 := fun (ht : truthy (field d "activeUsers") = true) =>
    jsMap_ok env.engine "reportData.activeUsers.map"
      (fun x hx => userWithDefaults_ok env.engine hx) w.view.mostActiveUsers ht h2
  have e3 := fun (ht : truthy (field d "monthlyActivity") = true) =>
    jsMap_ok env.engine "reportData.monthlyActivity.map"
      (fun x hx => monthWithDefaults_ok env.engine hx) w.view.monthlyActivity ht h3
  unfold processReportData
  dsimp only
  simp only [run_bind, run_liftE, getProp_ok _ _ hn]
  cases t0 : truthy (field d "statistics") <;>
  cases t1 : truthy (field d "popularRooms") <;>
  cases t2 : truthy (field d "activeUsers") <;>
  cases t3 : truthy (field d "monthlyActivity") <;>
  simp only [t1, t2, t3, true_implies] at e1 e2 e3 <;>
  simp only [if_true, if_false, run_bind, run_liftE, run_console, run_pure,
    setStats, setPopularRooms, setMostActiveUsers, setMonthlyActivity, run_modifyView,
    e1, e2, e3, true_and, viewAfter, Bool.false_eq_true, sliceAfter_falsy, t0, t1, t2, t3]

set_option maxRecDepth 4000 in
theorem processReportData_error (env : Env) (d : JsVal) (w : World) (h : payloadOk d = false) :
    ∃ e, (processReportData env d w).1 = .error e := by
  unfold processReportData
  dsimp only
  cases hn : nullish d
  · simp only [run_bind, run_liftE, getProp_ok _ _ hn]
    have e1 := fun (ht : truthy (field d "popularRooms") = true)
        (hr : recordsOk (field d "popularRooms") = true) =>
      jsMap_ok env.engine "reportData.popularRooms.map"
        (fun x hx => roomWithDefaults_ok env.engine hx) w.view.popularRooms ht hr
    have e2 := fun (ht : truthy (field d "activeUsers") = true)
        (hr : recordsOk (field d "activeUsers") = true) =>
      jsMap_ok env.engine "reportData.activeUsers.map"
        (fun x hx => userWithDefaults_ok env.engine hx) w.view.mostActiveUsers ht hr
    have f1 := fun (hr : recordsOk (field d "popularRooms") = false) =>
      jsMap_error env.engine "reportData.popularRooms.map"
        (fun x hx => roomWithDefaults_error env.engine hx) hr
    have f2 := fun (hr : recordsOk (field d "activeUsers") = false) =>
      jsMap_error env.engine "reportData.activeUsers.map"
        (fun x hx => userWithDefaults_error env.engine hx) hr
    have f3 := fun (hr : recordsOk (field d "monthlyActivity") = false) =>
      jsMap_error env.engine "reportData.monthlyActivity.map"
        (fun x hx => monthWithDefaults_error env.engine hx) hr
    cases h1 : recordsOk (field d "popularRooms")
    · obtain ⟨e, he⟩ := f1 h1
      have t1 := recordsOk_truthy_false h1
      cases t0 : truthy (field d "statistics") <;>
      simp [t0, t1, he, run_bind, run_liftE, run_console, run_pure, setStats, run_modifyView]
    · cases h2 : recordsOk (field d "activeUsers")
      · obtain ⟨e, he⟩ := f2 h2
        have t2 := recordsOk_truthy_false h2
        cases t0 : truthy (field d "statistics") <;>
        cases t1 : truthy (field d "popularRooms") <;>
        simp only [t1, h1, true_implies] at e1 <;>
        simp [t0, t1, t2, he, e1, run_bind, run_liftE, run_console, run_pure, setStats,
          setPopularRooms, run_modifyView]
      · have h3 : recordsOk (field d "monthlyActivity") = false := by
          simpa [payloadOk, hn, h1, h2] using h
        obtain ⟨e, he⟩ := f3 h3
        have t3 := recordsOk_truthy_false h3
        cases t0 : truthy (field d "statistics") <;>
        cases t1 : truthy (field d "popularRooms") <;>
        cases t2 : truthy (field d "activeUsers") <;>
        simp only [t1, t2, h1, h2, true_implies] at e1 e2 <;>
        simp [t0, t1, t2, t3, he, e1, e2, run_bind, run_liftE, run_console, run_pure, setStats,
          setPopularRooms, setMostActiveUsers, run_modifyView]
  · simp [getProp, hn, run_bind, run_liftE]

theorem recordsOk_of_payloadOk {d : JsVal} (hok : payloadOk d = true) :
    nullish d = false ∧ recordsOk (field d "popularRooms") = true ∧
      recordsOk (field d "activeUsers") = true ∧
      recordsOk (field d "monthlyActivity") = true := by
  simp only [payloadOk, Bool.and_eq_true, Bool.not_eq_true'] at hok
  exact ⟨hok.1.1.1, hok.1.1.2, hok.1.2, hok.2⟩

set_option maxRecDepth 4000 in
theorem processReportData_view (env : Env) (d : JsVal) (w : World) :
    (processReportData env d w).2.view = processedView w.view d := by
  unfold processReportData processedView
  dsimp only
  cases hn : nullish d
  · simp only [run_bind, run_liftE, getProp_ok _ _ hn, Bool.false_eq_true, if_false]
    have e1 := fun (ht : truthy (field d "popularRooms") = true)
        (hr : recordsOk (field d "popularRooms") = true) =>
      jsMap_ok env.engine "reportData.popularRooms.map"
        (fun x hx => roomWithDefaults_ok env.engine hx) w.view.popularRooms ht hr
    have e2 := fun (ht : truthy (field d "activeUsers") = true)
        (hr : recordsOk (field d "activeUsers") = true) =>
      jsMap_ok env.engine "reportData.activeUsers.map"
        (fun x hx => userWithDefaults_ok env.engine hx) w.view.mostActiveUsers ht hr
    have e3 := fun (ht : truthy (field d "monthlyActivity") = true)
        (hr : recordsOk (field d "monthlyActivity") = true) =>
      jsMap_ok env.engine "reportData.monthlyActivity.map"
        (fun x hx => monthWithDefaults_ok env.engine hx) w.view.monthlyActivity ht hr
    have f1 := fun (hr : recordsOk (field d "popularRooms") = false) =>
      jsMap_error env.engine "reportData.popularRooms.map"
        (fun x hx => roomWithDefaults_error env.engine hx) hr
    have f2 := fun (hr : recordsOk (field d "activeUsers") = false) =>
      jsMap_error env.engine "reportData.activeUsers.map"
        (fun x hx => userWithDefaults_error env.engine hx) hr
    have f3 := fun (hr : recordsOk (field d "monthlyActivity") = false) =>
      jsMap_error env.engine "reportData.monthlyActivity.map"
        (fun x hx => monthWithDefaults_error env.engine hx) hr
    cases h1 : recordsOk (field d "popularRooms")
    · obtain ⟨e, he⟩ := f1 h1
      have t1 := recordsOk_truthy_false h1
      cases t0 : truthy (field d "statistics") <;>
      simp [t0, t1, he, run_bind, run_liftE, run_console, run_pure, setStats, run_modifyView]
    · cases h2 : recordsOk (field d "activeUsers")
      · obtain ⟨e, he⟩ := f2 h2
        have t2 := recordsOk_truthy_false h2
        cases t0 : truthy (field d "statistics") <;>
        cases t1 : truthy (field d "popularRooms") <;>
        simp only [t1, h1, true_implies] at e1 <;>
        simp [t0, t1, t2, he, e1, run_bind, run_liftE, run_console, run_pure, setStats,
          setPopularRooms, run_modifyView, sliceAfter_falsy]
      · cases h3 : recordsOk (field d "monthlyActivity")
        · obtain ⟨e, he⟩ := f3 h3
          have t3 := recordsOk_truthy_false h3
          cases t0 : truthy (field d "statistics") <;>
          cases t1 : truthy (field d "popularRooms") <;>
          cases t2 : truthy (field d "activeUsers") <;>
          simp only [t1, t2, h1, h2, true_implies] at e1 e2 <;>
          simp [t0, t1, t2, t3, he, e1, e2, run_bind, run_liftE, run_console, run_pure,
            setStats, setPopularRooms, setMostActiveUsers, run_modifyView, sliceAfter_falsy]
        · cases t0 : truthy (field d "statistics") <;>
          cases t1 : truthy (field d "popularRooms") <;>
          cases t2 : truthy (field d "activeUsers") <;>
          cases t3 : truthy (field d "monthlyActivity") <;>
          simp only [t1, t2, t3, h1, h2, h3, true_implies] at e1 e2 e3 <;>
          simp [t0, t1, t2, t3, e1, e2, e3, run_bind, run_liftE, run_console, run_pure,
            setStats, setPopularRooms, setMostActiveUsers, setMonthlyActivity,
            run_modifyView, sliceAfter_falsy]
  · simp [getProp, hn, run_bind, run_liftE]

theorem processedView_of_payloadOk {d : JsVal} (h : payloadOk d = true) (s : ViewState) :
    processedView s d = viewAfter s d := by
  obtain ⟨hn, h1, h2, h3⟩ := recordsOk_of_payloadOk h
  simp [processedView, viewAfter, hn, h1, h2, h3]

theorem nullish_false_of_field {d : JsVal} {k : String} {v : JsVal} (h : field d k = v)
    (hv : v ≠ .undefined) : nullish d = false := by
  cases d <;> simp_all [field, nullish]

theorem processedView_stats {d : JsVal} (hn : nullish d = false) (s : ViewState) :
    (processedView s d).stats =
      if truthy (field d "statistics") then field d "statistics" else s.stats := by
  unfold processedView
  simp only [hn, Bool.false_eq_true, if_false]
  split_ifs <;> rfl

theorem processedView_popularRooms {d : JsVal} (hn : nullish d = false)
    (hr : recordsOk (field d "popularRooms") = true) (s : ViewState) :
    (processedView s d).popularRooms =
      sliceAfter roomDefaults s.popularRooms (field d "popularRooms") := by
  unfold processedView
  simp only [hn, hr, Bool.false_eq_true, if_false, if_true]
  split_ifs <;> rfl

theorem processedView_slices (s : ViewState) (d : JsVal) :
    ((processedView s d).popularRooms = s.popularRooms ∨
      (processedView s d).popularRooms =
        sliceAfter roomDefaults s.popularRooms (field d "popularRooms")) ∧
    ((processedView s d).mostActiveUsers = s.mostActiveUsers ∨
      (processedView s d).mostActiveUsers =
        sliceAfter userDefaults s.mostActiveUsers (field d "activeUsers")) ∧
    ((processedView s d).monthlyActivity = s.monthlyActivity ∨
      (processedView s d).monthlyActivity =
        sliceAfter monthDefaults s.monthlyActivity (field d "monthlyActivity")) := by
  unfold processedView
  split_ifs <;> simp

/-! ## processReportData is uniform in the world -/

theorem Uniform.pure {α : Type} (a : α) : Uniform (Pure.pure a : Eff α) :=
  ⟨.ok a, id, [], fun w => by simp [run_pure], by simp, fun _ => ⟨rfl, rfl, rfl, rfl, rfl, rfl⟩⟩

theorem Uniform.liftE {α : Type} (r : Except JsError α) : Uniform (liftE r) :=
  ⟨r, id, [], fun w => by simp [run_liftE], by simp, fun _ => ⟨rfl, rfl, rfl, rfl, rfl, rfl⟩⟩

theorem Uniform.console (msg : String) : Uniform (console msg) :=
  ⟨.ok (), id, [.console msg], fun w => by simp [run_console], by simp,
    fun _ => ⟨rfl, rfl, rfl, rfl, rfl, rfl⟩⟩

theorem Uniform.modifyData (f : ViewState → ViewState) (hf : KeepsFlags f) :
    Uniform (modifyView f) :=
  ⟨.ok (), f, [], fun w => by simp [run_modifyView], by simp, hf⟩

theorem Uniform.bind {α β : Type} {m : Eff α} {k : α → Eff β} (hm : Uniform m)
    (hk : ∀ a, Uniform (k a)) : Uniform (m >>= k) := by
  obtain ⟨r, f, l, hrun, hl, hf⟩ := hm.run
  cases r with
  | error e =>
    exact ⟨.error e, f, l, fun w => by rw [run_bind, hrun], hl, hf⟩
  | ok a =>
    obtain ⟨r2, f2, l2, hrun2, hl2, hf2⟩ := (hk a).run
    refine ⟨r2, f2 ∘ f, l ++ l2, fun w => ?_, ?_, ?_⟩
    · rw [run_bind, hrun]
      simp only [hrun2, Function.comp, List.append_assoc]
    · intro e he
      rcases List.mem_append.1 he with h | h
      · exact hl e h
      · exact hl2 e h
    · intro s
      obtain ⟨a1, a2, a3, a4, a5, a6⟩ := hf s
      obtain ⟨b1, b2, b3, b4, b5, b6⟩ := hf2 (f s)
      exact ⟨b1.trans a1, b2.trans a2, b3.trans a3, b4.trans a4, b5.trans a5, b6.trans a6⟩

theorem Uniform.ite {α : Type} (c : Prop) [Decidable c] {m n : Eff α} (hm : Uniform m)
    (hn : Uniform n) : Uniform (if c then m else n) := by
  split
  · exact hm
  · exact hn

set_option maxRecDepth 4000 in
theorem processReportData_uniform (env : Env) (d : JsVal) : Uniform (processReportData env d) := by
  unfold processReportData
  dsimp only
  repeat first
    | apply Uniform.ite
    | apply Uniform.bind
    | intro _
    | exact Uniform.liftE _
    | exact Uniform.console _
    | exact Uniform.pure _
    | exact Uniform.modifyData _ (fun _ => ⟨rfl, rfl, rfl, rfl, rfl, rfl⟩)

/-- Outcome, view update and log of `processReportData`, the same in every world. -/
theorem processReportData_run (env : Env) (d : JsVal) :
    ∃ (r : Except JsError Unit) (f : ViewState → ViewState) (l : List Event),
      (∀ w : World, processReportData env d w =
        (r, { w with view := f w.view, trace := w.trace ++ l })) ∧
      (∀ e ∈ l, ∃ msg, e = Event.console msg) ∧ KeepsFlags f ∧
      (payloadOk d = true → r = .ok () ∧ ∀ s, f s = viewAfter s d) ∧
      (payloadOk d = false → ∃ e, r = .error e) := by
  obtain ⟨r, f, l, hrun, hl, hf⟩ := (processReportData_uniform env d).run
  refine ⟨r, f, l, hrun, hl, hf, ?_, ?_⟩
  · intro hok
    constructor
    · have := (processReportData_ok env d ⟨initialView, 0, [], []⟩ hok).1
      rw [hrun] at this
      exact this
    · intro s
      have := (processReportData_ok env d ⟨s, 0, [], []⟩ hok).2
      rw [hrun] at this
      exact this
  · intro hbad
    obtain ⟨e, he⟩ := processReportData_error env d ⟨initialView, 0, [], []⟩ hbad
    rw [hrun] at he
    exact ⟨e, he⟩

/-! ## Fields of the normalised records -/

theorem field_of_hasField_false {r : JsVal} {k : String} (h : hasField r k = false) :
    field r k = .undefined := by
  cases r <;> simp_all [hasField, field]

theorem field_obj_setField_same (k : String) (v : JsVal) (fs : List (String × JsVal)) :
    field (.obj (setField k v fs)) k = v := by
  simp [field, lookupField_setField_same]

theorem field_obj_setField_ne {k k' : String} (h : k' ≠ k) (v : JsVal)
    (fs : List (String × JsVal)) :
    field (.obj (setField k' v fs)) k = field (.obj fs) k := by
  simp [field, lookupField_setField_ne h]

theorem jsOr_nullish {a : JsVal} (b : JsVal) (h : nullish a = true) : jsOr a b = b := by
  cases a <;> simp_all [nullish, jsOr, truthy]

theorem jsOr_not_nullish (a : JsVal) {b : JsVal} (hb : nullish b = false) :
    nullish (jsOr a b) = false := by
  unfold jsOr
  split
  · cases a <;> simp_all [truthy, nullish]
  · exact hb

theorem field_roomDefaults_percentage (r : JsVal) :
    field (roomDefaults r) "percentage" = jsOr (field r "percentage") (.num 0) := by
  unfold roomDefaults
  rw [field_obj_setField_ne (by decide), field_obj_setField_same]

theorem field_roomDefaults_roleData (r : JsVal) :
    field (roomDefaults r) "roleData" = jsOr (field r "roleData") defaultRoleData := by
  unfold roomDefaults
  rw [field_obj_setField_same]

theorem field_userDefaults_userName (r : JsVal) :
    field (userDefaults r) "userName" = jsOr (field r "userName") (.str "Unknown User") := by
  unfold userDefaults
  rw [field_obj_setField_ne (by decide), field_obj_setField_ne (by decide),
    field_obj_setField_same]

theorem field_userDefaults_role (r : JsVal) :
    field (userDefaults r) "role" = jsOr (field r "role") (.str "Unknown Role") := by
  unfold userDefaults
  rw [field_obj_setField_ne (by decide), field_obj_setField_same]

theorem field_userDefaults_count (r : JsVal) :
    field (userDefaults r) "count" = jsOr (field r "count") (.num 0) := by
  unfold userDefaults
  rw [field_obj_setField_same]

theorem field_monthDefaults_professorCount (r : JsVal) :
    field (monthDefaults r) "professorCount" = jsOr (field r "professorCount") (.num 0) := by
  unfold monthDefaults
  rw [field_obj_setField_ne (by decide), field_obj_setField_ne (by decide),
    field_obj_setField_ne (by decide), field_obj_setField_same]

theorem field_monthDefaults_studentCount (r : JsVal) :
    field (monthDefaults r) "studentCount" = jsOr (field r "studentCount") (.num 0) := by
  unfold monthDefaults
  rw [field_obj_setField_ne (by decide), field_obj_setField_ne (by decide),
    field_obj_setField_same]

theorem field_monthDefaults_adminCount (r : JsVal) :
    field (monthDefaults r) "adminCount" = definedOrZero (field r "adminCount") := by
  unfold monthDefaults
  rw [field_obj_setField_ne (by decide), field_obj_setField_same]

theorem field_monthDefaults_total (r : JsVal) :
    field (monthDefaults r) "total" = jsOr (field r "total") (.num 0) := by
  unfold monthDefaults
  rw [field_obj_setField_same]

/-! ## Normalisation (C5 to C10) -/

/-- C5: for every payload with a `popularRooms` list (none of whose records is null or
undefined, so that the list can be mapped), the record at index `i`, when it has no
`percentage` field, is normalised to a room whose `percentage` is 0; this room is in the
state after `processReportData`, which returns normally when the payload as a whole can
be processed. -/
theorem popularRooms_percentage_default (env : Env) (w : World) (d : JsVal)
    (rooms : List JsVal) (i : Nat) (r : JsVal)
    (hrooms : field d "popularRooms" = .arr rooms) (hrec : recordsOk (.arr rooms) = true)
    (hi : rooms[i]? = some r) (hno : hasField r "percentage" = false) :
    (∃ rooms' r', (processReportData env d w).2.view.popularRooms = .arr rooms' ∧
        rooms'[i]? = some r' ∧ field r' "percentage" = .num 0) ∧
      (payloadOk d = true → (processReportData env d w).1 = .ok ()) := by
  have hn : nullish d = false := nullish_false_of_field hrooms (by simp)
  refine ⟨⟨rooms.map roomDefaults, roomDefaults r, ?_, ?_, ?_⟩,
    fun hok => (processReportData_ok env d w hok).1⟩
  · rw [processReportData_view, processedView_popularRooms hn (by rw [hrooms]; exact hrec),
      hrooms]
    rfl
  · simp [List.getElem?_map, hi]
  · rw [field_roomDefaults_percentage, field_of_hasField_false hno]
    rfl

/-- C5 witness: the payload `{popularRooms: [{room: "A"}]}`. -/
theorem popularRooms_percentage_default_witness :
    (∃ rooms' r', (processReportData offlineEnv
          (.obj [("popularRooms", .arr [.obj [("room", .str "A")]])])
          initialWorld).2.view.popularRooms = .arr rooms' ∧
        rooms'[0]? = some r' ∧ field r' "percentage" = .num 0) ∧
      (payloadOk (.obj [("popularRooms", .arr [.obj [("room", .str "A")]])]) = true →
        (processReportData offlineEnv (.obj [("popularRooms", .arr [.obj [("room", .str "A")]])])
          initialWorld).1 = .ok ()) :=
  popularRooms_percentage_default offlineEnv initialWorld
    (.obj [("popularRooms", .arr [.obj [("room", .str "A")]])])
    [.obj [("room", .str "A")]] 0 (.obj [("room", .str "A")]) rfl (by decide) rfl (by decide)

theorem all_set_of_all {p : JsVal → Bool} :
    ∀ (xs : List JsVal) (i : Nat) (r : JsVal), xs.all p = true → p r = true →
      (xs.set i r).all p = true
  | [], _, _, _, _ => by simp
  | x :: xs, 0, r, h, hr => by
    simp only [List.all_cons, Bool.and_eq_true] at h
    simp [List.set, hr, h.2]
  | x :: xs, i + 1, r, h, hr => by
    simp only [List.all_cons, Bool.and_eq_true] at h
    simp only [List.set, List.all_cons, Bool.and_eq_true]
    exact ⟨h.1, all_set_of_all xs i r h.2 hr⟩

theorem payloadOk_withMonth {dfs : List (String × JsVal)} {months : List JsVal}
    (hok : payloadOk (.obj dfs) = true)
    (hm : field (.obj dfs) "monthlyActivity" = .arr months) (i : Nat) {r : JsVal}
    (hr : nullish r = false) : payloadOk (withMonth dfs months i r) = true := by
  simp only [payloadOk, Bool.and_eq_true, Bool.not_eq_true'] at hok ⊢
  obtain ⟨⟨⟨_, h1⟩, h2⟩, h3⟩ := hok
  unfold withMonth
  rw [field_obj_setField_ne (by decide), field_obj_setField_ne (by decide),
    field_obj_setField_same]
  refine ⟨⟨⟨rfl, h1⟩, h2⟩, ?_⟩
  rw [hm] at h3
  exact all_set_of_all months i r h3 (by simp [hr])

/-- C6: in a payload that `processReportData` handles without throwing, a monthly record
without an `adminCount` field is normalised to `adminCount` 0, and so is the otherwise
identical record that carries `adminCount: 0`: absent and present-as-0 give the same
result. -/
theorem monthlyActivity_adminCount_absent_as_zero (env : Env) (w : World)
    (dfs : List (String × JsVal)) (months : List JsVal) (i : Nat) (fs : List (String × JsVal))
    (hok : payloadOk (.obj dfs) = true)
    (hm : field (.obj dfs) "monthlyActivity" = .arr months)
    (hi : months[i]? = some (.obj fs)) (hno : lookupField "adminCount" fs = none) :
    ∃ ms ms' m m',
      (processReportData env (.obj dfs) w).1 = .ok () ∧
      (processReportData env (.obj dfs) w).2.view.monthlyActivity = .arr ms ∧
      ms[i]? = some m ∧ field m "adminCount" = .num 0 ∧
      (processReportData env (withMonth dfs months i (withAdminZero fs)) w).1 = .ok () ∧
      (processReportData env (withMonth dfs months i (withAdminZero fs)) w).2.view.monthlyActivity
        = .arr ms' ∧
      ms'[i]? = some m' ∧ field m' "adminCount" = field m "adminCount" := by
  have hlt : i < months.length := by
    rcases Nat.lt_or_ge i months.length with h | h
    · exact h
    · rw [List.getElem?_eq_none h] at hi
      cases hi
  have hok' := payloadOk_withMonth hok hm i (r := withAdminZero fs) rfl
  obtain ⟨h1, h2⟩ := processReportData_ok env (.obj dfs) w hok
  obtain ⟨g1, g2⟩ := processReportData_ok env _ w hok'
  have ha : field (monthDefaults (.obj fs)) "adminCount" = .num 0 := by
    rw [field_monthDefaults_adminCount]
    simp [field, hno, definedOrZero]
  have ha' : field (monthDefaults (withAdminZero fs)) "adminCount" = .num 0 := by
    rw [field_monthDefaults_adminCount, withAdminZero, field_obj_setField_same]
    rfl
  refine ⟨months.map monthDefaults, (months.set i (withAdminZero fs)).map monthDefaults,
    monthDefaults (.obj fs), monthDefaults (withAdminZero fs), ?_, ?_, ?_, ha, ?_, ?_, ?_, ?_⟩
  · exact h1
  · rw [h2]
    simp [viewAfter, hm, sliceAfter]
  · simp [List.getElem?_map, hi]
  · exact g1
  · rw [g2]
    simp [viewAfter, withMonth, field_obj_setField_same, sliceAfter]
  · simp [List.getElem?_map, List.getElem?_set, hlt]
  · rw [ha, ha']

/-- C6 witness: the payload `{monthlyActivity: [{month: "Jan"}]}`. -/
theorem monthlyActivity_adminCount_absent_as_zero_witness :
    ∃ ms ms' m m',
      (processReportData offlineEnv
          (.obj [("monthlyActivity", .arr [.obj [("month", .str "Jan")]])])
          initialWorld).1 = .ok () ∧
      (processReportData offlineEnv
          (.obj [("monthlyActivity", .arr [.obj [("month", .str "Jan")]])])
          initialWorld).2.view.monthlyActivity = .arr ms ∧
      ms[0]? = some m ∧ field m "adminCount" = .num 0 ∧
      (processReportData offlineEnv
          (withMonth [("monthlyActivity", .arr [.obj [("month", .str "Jan")]])]
            [.obj [("month", .str "Jan")]] 0 (withAdminZero [("month", .str "Jan")]))
          initialWorld).1 = .ok () ∧
      (processReportData offlineEnv
          (withMonth [("monthlyActivity", .arr [.obj [("month", .str "Jan")]])]
            [.obj [("month", .str "Jan")]] 0 (withAdminZero [("month", .str "Jan")]))
          initialWorld).2.view.monthlyActivity = .arr ms' ∧
      ms'[0]? = some m' ∧ field m' "adminCount" = field m "adminCount" :=
  monthlyActivity_adminCount_absent_as_zero offlineEnv initialWorld
    [("monthlyActivity", .arr [.obj [("month", .str "Jan")]])]
    [.obj [("month", .str "Jan")]] 0 [("month", .str "Jan")] (by decide) rfl rfl rfl

theorem sectionDefaulted_map {table : List (String × JsVal)} {g : JsVal → JsVal}
    (hg : ∀ r, DefaultsFilled table r (g r)) (input : List JsVal) :
    SectionDefaulted table input (.arr (input.map g)) := by
  refine ⟨input.map g, rfl, by simp, ?_⟩
  intro i r r' hi hi'
  rw [List.getElem?_map, hi] at hi'
  cases hi'
  exact hg r

theorem roomDefaults_filled (r : JsVal) : DefaultsFilled roomOptionalFields r (roomDefaults r) := by
  intro p hp hn
  simp only [roomOptionalFields, List.mem_cons, List.mem_singleton, List.not_mem_nil,
    or_false] at hp
  rcases hp with rfl | rfl
  · rw [field_roomDefaults_percentage, jsOr_nullish _ hn]
  · rw [field_roomDefaults_roleData, jsOr_nullish _ hn]

theorem userDefaults_filled (r : JsVal) : DefaultsFilled userOptionalFields r (userDefaults r) := by
  intro p hp hn
  simp only [userOptionalFields, List.mem_cons, List.mem_singleton, List.not_mem_nil,
    or_false] at hp
  rcases hp with rfl | rfl | rfl
  · rw [field_userDefaults_userName, jsOr_nullish _ hn]
  · rw [field_userDefaults_role, jsOr_nullish _ hn]
  · rw [field_userDefaults_count, jsOr_nullish _ hn]

theorem monthDefaults_filled (r : JsVal) : DefaultsFilled monthOrFields r (monthDefaults r) := by
  intro p hp hn
  simp only [monthOrFields, List.mem_cons, List.mem_singleton, List.not_mem_nil,
    or_false] at hp
  rcases hp with rfl | rfl | rfl
  · rw [field_monthDefaults_professorCount, jsOr_nullish _ hn]
  · rw [field_monthDefaults_studentCount, jsOr_nullish _ hn]
  · rw [field_monthDefaults_total, jsOr_nullish _ hn]

/-- C7 as stated fails: a monthly record with `adminCount: null` keeps null, it does not
get the documented default 0. -/
theorem defaults_counterexample_null_adminCount :
    (processReportData offlineEnv nullAdminPayload initialWorld).1 = .ok () ∧
      ¬ SectionDefaulted monthOptionalFields
        [.obj [("month", .str "Jan"), ("adminCount", .null)]]
        (processReportData offlineEnv nullAdminPayload initialWorld).2.view.monthlyActivity := by
  refine ⟨rfl, ?_⟩
  rintro ⟨rs', h, -, hall⟩
  have hv : (processReportData offlineEnv nullAdminPayload initialWorld).2.view.monthlyActivity
      = .arr [monthDefaults (.obj [("month", .str "Jan"), ("adminCount", .null)])] := rfl
  rw [hv] at h
  cases h
  have h0 : field (monthDefaults (.obj [("month", .str "Jan"), ("adminCount", .null)]))
      "adminCount" = .num 0 :=
    hall 0 _ _ rfl rfl ("adminCount", .num 0) (by simp [monthOptionalFields]) rfl
  rw [field_monthDefaults_adminCount] at h0
  cases h0

/-- C7 amended: on a payload that `processReportData` handles without throwing, every
record of `popularRooms`, `activeUsers` and `monthlyActivity` gets the documented default
for each optional field that is absent, null or undefined (0 for `percentage`, `count`,
`professorCount`, `studentCount`, `total`; the all-zero role breakdown; "Unknown User";
"Unknown Role"), except that `adminCount` gets 0 only when it is absent or undefined: a
null `adminCount` is kept as null. -/
theorem defaults_filled (env : Env) (w : World) (d : JsVal) (hok : payloadOk d = true) :
    (processReportData env d w).1 = .ok () ∧
    (∀ rooms, field d "popularRooms" = .arr rooms →
      SectionDefaulted roomOptionalFields rooms
        (processReportData env d w).2.view.popularRooms) ∧
    (∀ users, field d "activeUsers" = .arr users →
      SectionDefaulted userOptionalFields users
        (processReportData env d w).2.view.mostActiveUsers) ∧
    (∀ months, field d "monthlyActivity" = .arr months →
      SectionDefaulted monthOrFields months
        (processReportData env d w).2.view.monthlyActivity ∧
      ∃ ms', (processReportData env d w).2.view.monthlyActivity = .arr ms' ∧
        ∀ (i : Nat) (r r' : JsVal), months[i]? = some r → ms'[i]? = some r' →
          (field r "adminCount" = .undefined → field r' "adminCount" = .num 0) ∧
          (field r "adminCount" = .null → field r' "adminCount" = .null)) := by
  obtain ⟨h1, h2⟩ := processReportData_ok env d w hok
  refine ⟨h1, ?_, ?_, ?_⟩
  · intro rooms hr
    rw [h2]
    simp only [viewAfter, hr, sliceAfter]
    exact sectionDefaulted_map roomDefaults_filled rooms
  · intro users hr
    rw [h2]
    simp only [viewAfter, hr, sliceAfter]
    exact sectionDefaulted_map userDefaults_filled users
  · intro months hr
    rw [h2]
    simp only [viewAfter, hr, sliceAfter]
    refine ⟨sectionDefaulted_map monthDefaults_filled months, months.map monthDefaults, rfl, ?_⟩
    intro i r r' hi hi'
    rw [List.getElem?_map, hi] at hi'
    cases hi'
    rw [field_monthDefaults_adminCount]
    constructor
    · intro h
      rw [h]
      rfl
    · intro h
      rw [h]
      rfl

/-- C7 witness: the payload with one monthly record whose `adminCount` is null. -/
theorem defaults_filled_witness :
    (processReportData offlineEnv nullAdminPayload initialWorld).1 = .ok () ∧
    (∀ rooms, field nullAdminPayload "popularRooms" = .arr rooms →
      SectionDefaulted roomOptionalFields rooms
        (processReportData offlineEnv nullAdminPayload initialWorld).2.view.popularRooms) ∧
    (∀ users, field nullAdminPayload "activeUsers" = .arr users →
      SectionDefaulted userOptionalFields users
        (processReportData offlineEnv nullAdminPayload initialWorld).2.view.mostActiveUsers) ∧
    (∀ months, field nullAdminPayload "monthlyActivity" = .arr months →
      SectionDefaulted monthOrFields months
        (processReportData offlineEnv nullAdminPayload initialWorld).2.view.monthlyActivity ∧
      ∃ ms', (processReportData offlineEnv nullAdminPayload
          initialWorld).2.view.monthlyActivity = .arr ms' ∧
        ∀ (i : Nat) (r r' : JsVal), months[i]? = some r → ms'[i]? = some r' →
          (field r "adminCount" = .undefined → field r' "adminCount" = .num 0) ∧
          (field r "adminCount" = .null → field r' "adminCount" = .null)) :=
  defaults_filled offlineEnv initialWorld nullAdminPayload (by decide)

theorem carriedOver_map {g : JsVal → JsVal} {tests : List (String × (JsVal → Bool))}
    (hg : ∀ r, ∃ fs', g r = .obj fs' ∧
      (∀ k, k ∉ tests.map Prod.fst → lookupField k fs' = lookupField k (spread r)) ∧
      ∀ p ∈ tests, p.2 (field r p.1) = true → lookupField p.1 fs' = some (field r p.1))
    (input : List JsVal) :
    CarriedOver tests input (.arr (input.map g)) := by
  refine ⟨input.map g, rfl, by simp, ?_⟩
  intro i r hi
  obtain ⟨fs', h1, h2, h3⟩ := hg r
  refine ⟨fs', ?_, fun _ => h2, h3⟩
  rw [List.getElem?_map, hi, Option.map_some', h1]

theorem jsOr_truthy {a : JsVal} (b : JsVal) (h : truthy a = true) : jsOr a b = a := by
  simp [jsOr, h]

theorem definedOrZero_isDefined {v : JsVal} (h : isDefined v = true) : definedOrZero v = v := by
  cases v <;> simp_all [definedOrZero, isDefined]

theorem roomDefaults_carries (r : JsVal) : ∃ fs', roomDefaults r = .obj fs' ∧
    (∀ k, k ∉ roomKeepTests.map Prod.fst → lookupField k fs' = lookupField k (spread r)) ∧
    ∀ p ∈ roomKeepTests, p.2 (field r p.1) = true →
      lookupField p.1 fs' = some (field r p.1) := by
  refine ⟨_, rfl, ?_, ?_⟩
  · intro k hk
    simp only [roomKeepTests, List.map_cons, List.map_nil, List.mem_cons, List.mem_singleton,
      List.not_mem_nil, or_false, not_or] at hk
    rw [lookupField_setField_ne (Ne.symm hk.2), lookupField_setField_ne (Ne.symm hk.1)]
  · intro p hp hkeep
    simp only [roomKeepTests, List.mem_cons, List.mem_singleton, List.not_mem_nil,
      or_false] at hp
    rcases hp with rfl | rfl
    · rw [lookupField_setField_ne (by decide), lookupField_setField_same, jsOr_truthy _ hkeep]
    · rw [lookupField_setField_same, jsOr_truthy _ hkeep]

theorem userDefaults_carries (r : JsVal) : ∃ fs', userDefaults r = .obj fs' ∧
    (∀ k, k ∉ userKeepTests.map Prod.fst → lookupField k fs' = lookupField k (spread r)) ∧
    ∀ p ∈ userKeepTests, p.2 (field r p.1) = true →
      lookupField p.1 fs' = some (field r p.1) := by
  refine ⟨_, rfl, ?_, ?_⟩
  · intro k hk
    simp only [userKeepTests, List.map_cons, List.map_nil, List.mem_cons, List.mem_singleton,
      List.not_mem_nil, or_false, not_or] at hk
    rw [lookupField_setField_ne (Ne.symm hk.2.2), lookupField_setField_ne (Ne.symm hk.2.1),
      lookupField_setField_ne (Ne.symm hk.1)]
  · intro p hp hkeep
    simp only [userKeepTests, List.mem_cons, List.mem_singleton, List.not_mem_nil,
      or_false] at hp
    rcases hp with rfl | rfl | rfl
    · rw [lookupField_setField_ne (by decide), lookupField_setField_ne (by decide),
        lookupField_setField_same, jsOr_truthy _ hkeep]
    · rw [lookupField_setField_ne (by decide), lookupField_setField_same,
        jsOr_truthy _ hkeep]
    · rw [lookupField_setField_same, jsOr_truthy _ hkeep]

theorem monthDefaults_carries (r : JsVal) : ∃ fs', monthDefaults r = .obj fs' ∧
    (∀ k, k ∉ monthKeepTests.map Prod.fst → lookupField k fs' = lookupField k (spread r)) ∧
    ∀ p ∈ monthKeepTests, p.2 (field r p.1) = true →
      lookupField p.1 fs' = some (field r p.1) := by
  refine ⟨_, rfl, ?_, ?_⟩
  · intro k hk
    simp only [monthKeepTests, List.map_cons, List.map_nil, List.mem_cons, List.mem_singleton,
      List.not_mem_nil, or_false, not_or] at hk
    rw [lookupField_setField_ne (Ne.symm hk.2.2.2), lookupField_setField_ne (Ne.symm hk.2.2.1),
      lookupField_setField_ne (Ne.symm hk.2.1), lookupField_setField_ne (Ne.symm hk.1)]
  · intro p hp hkeep
    simp only [monthKeepTests, List.mem_cons, List.mem_singleton, List.not_mem_nil,
      or_false] at hp
    rcases hp with rfl | rfl | rfl | rfl
    · rw [lookupField_setField_ne (by decide), lookupField_setField_ne (by decide),
        lookupField_setField_ne (by decide), lookupField_setField_same, jsOr_truthy _ hkeep]
    · rw [lookupField_setField_ne (by decide), lookupField_setField_ne (by decide),
        lookupField_setField_same, jsOr_truthy _ hkeep]
    · rw [lookupField_setField_ne (by decide), lookupField_setField_same,
        definedOrZero_isDefined hkeep]
    · rw [lookupField_setField_same, jsOr_truthy _ hkeep]

/-- C8: on a payload that `processReportData` handles without throwing, each of the lists
`popularRooms`, `activeUsers` and `monthlyActivity` is normalised to a list of the same
length and order; in record `i` of the result every field that is not an optional one
is the field of input record `i`, and every optional field that the input record
supplies (a truthy value; for `adminCount` any value but undefined) keeps that value. -/
theorem lists_shape_preserved (env : Env) (w : World) (d : JsVal) (hok : payloadOk d = true) :
    (processReportData env d w).1 = .ok () ∧
    (∀ rooms, field d "popularRooms" = .arr rooms →
      CarriedOver roomKeepTests rooms (processReportData env d w).2.view.popularRooms) ∧
    (∀ users, field d "activeUsers" = .arr users →
      CarriedOver userKeepTests users (processReportData env d w).2.view.mostActiveUsers) ∧
    (∀ months, field d "monthlyActivity" = .arr months →
      CarriedOver monthKeepTests months
        (processReportData env d w).2.view.monthlyActivity) := by
  obtain ⟨h1, h2⟩ := processReportData_ok env d w hok
  refine ⟨h1, ?_, ?_, ?_⟩
  · intro rooms hr
    rw [h2]
    simp only [viewAfter, hr, sliceAfter]
    exact carriedOver_map roomDefaults_carries rooms
  · intro users hr
    rw [h2]
    simp only [viewAfter, hr, sliceAfter]
    exact carriedOver_map userDefaults_carries users
  · intro months hr
    rw [h2]
    simp only [viewAfter, hr, sliceAfter]
    exact carriedOver_map monthDefaults_carries months

/-- C8 witness: a payload with two rooms, one user and one month. -/
theorem lists_shape_preserved_witness :
    (processReportData offlineEnv samplePayload initialWorld).1 = .ok () ∧
    (∀ rooms, field samplePayload "popularRooms" = .arr rooms →
      CarriedOver roomKeepTests rooms
        (processReportData offlineEnv samplePayload initialWorld).2.view.popularRooms) ∧
    (∀ users, field samplePayload "activeUsers" = .arr users →
      CarriedOver userKeepTests users
        (processReportData offlineEnv samplePayload initialWorld).2.view.mostActiveUsers) ∧
    (∀ months, field samplePayload "monthlyActivity" = .arr months →
      CarriedOver monthKeepTests months
        (processReportData offlineEnv samplePayload initialWorld).2.view.monthlyActivity) :=
  lists_shape_preserved offlineEnv initialWorld samplePayload (by decide)

theorem sliceAfter_cases (g : JsVal → JsVal) (old v : JsVal) :
    sliceAfter g old v = old ∨ ∃ xs : List JsVal, sliceAfter g old v = .arr (xs.map g) := by
  cases v
  case arr xs => exact Or.inr ⟨xs, rfl⟩
  all_goals exact Or.inl rfl

theorem definedOrZero_ne_undefined (v : JsVal) : definedOrZero v ≠ .undefined := by
  cases v <;> simp [definedOrZero]

/-- C9 as stated fails: on the scenario payload the stats in state have no
`approvedReservations` at all (undefined), not 0. -/
theorem stats_counterexample_missing_field_undefined :
    (processReportData offlineEnv scenarioPayload initialWorld).1 = .ok () ∧
      ¬ StatsDefaulted (field scenarioPayload "statistics")
        (processReportData offlineEnv scenarioPayload initialWorld).2.view := by
  refine ⟨rfl, ?_⟩
  intro h
  have h0 : JsVal.undefined = JsVal.num 0 :=
    (h "approvedReservations" (by simp [statisticsFields])).1 rfl
  cases h0

/-- C9 amended: on every payload that carries a statistics object, the stats held in view
state after `processReportData` are the statistics object of the payload itself: every
field has the value of the payload, a field the payload lacks is undefined in state, and
the value 0 for it is supplied only where the view renders it as `stats.field || 0`. -/
theorem stats_stored_as_received (env : Env) (w : World) (d : JsVal)
    (sfs : List (String × JsVal)) (hs : field d "statistics" = .obj sfs) :
    (processReportData env d w).2.view.stats = .obj sfs ∧
    ∀ k, field (processReportData env d w).2.view.stats k = field (.obj sfs) k ∧
      (hasField (.obj sfs) k = false →
        field (processReportData env d w).2.view.stats k = .undefined ∧
        statCell (processReportData env d w).2.view k = .num 0) ∧
      (truthy (field (.obj sfs) k) = true →
        statCell (processReportData env d w).2.view k = field (.obj sfs) k) := by
  have hn : nullish d = false := nullish_false_of_field hs (by simp)
  have hst : (processReportData env d w).2.view.stats = .obj sfs := by
    rw [processReportData_view, processedView_stats hn, hs]
    rfl
  refine ⟨hst, ?_⟩
  intro k
  rw [statCell, hst]
  refine ⟨rfl, ?_, ?_⟩
  · intro hno
    rw [field_of_hasField_false hno]
    exact ⟨rfl, rfl⟩
  · intro ht
    simp [jsOr, ht]

/-- C9 witness: the scenario payload. -/
theorem stats_stored_as_received_witness :
    (processReportData offlineEnv scenarioPayload initialWorld).2.view.stats =
      .obj [("totalReservations", .num 5)] ∧
    ∀ k, field (processReportData offlineEnv scenarioPayload initialWorld).2.view.stats k =
        field (.obj [("totalReservations", .num 5)]) k ∧
      (hasField (.obj [("totalReservations", .num 5)]) k = false →
        field (processReportData offlineEnv scenarioPayload initialWorld).2.view.stats k
          = .undefined ∧
        statCell (processReportData offlineEnv scenarioPayload initialWorld).2.view k = .num 0) ∧
      (truthy (field (.obj [("totalReservations", .num 5)]) k) = true →
        statCell (processReportData offlineEnv scenarioPayload initialWorld).2.view k =
          field (.obj [("totalReservations", .num 5)]) k) :=
  stats_stored_as_received offlineEnv initialWorld scenarioPayload
    [("totalReservations", .num 5)] rfl

/-- C10 as stated fails: on a payload with a room without `count`, statistics without
`approvedReservations` and a month with `adminCount: null`, the state after
`processReportData` holds undefined, undefined and null in these places. -/
theorem rendered_numbers_counterexample_gaps :
    (processReportData offlineEnv gapsPayload initialWorld).1 = .ok () ∧
      ¬ RenderedNumbersPresent (processReportData offlineEnv gapsPayload initialWorld).2.view ∧
      field (processReportData offlineEnv gapsPayload initialWorld).2.view.stats
        "approvedReservations" = .undefined ∧
      (processReportData offlineEnv gapsPayload initialWorld).2.view.popularRooms =
        .arr [roomDefaults (.obj [("room", .str "A")])] ∧
      roomCountCell (roomDefaults (.obj [("room", .str "A")])) = .undefined ∧
      (processReportData offlineEnv gapsPayload initialWorld).2.view.monthlyActivity =
        .arr [monthDefaults (.obj [("month", .str "Jan"), ("adminCount", .null)])] ∧
      monthAdminCell (monthDefaults (.obj [("month", .str "Jan"), ("adminCount", .null)]))
        = .null := by
  refine ⟨rfl, ?_, rfl, rfl, rfl, rfl, rfl⟩
  rintro ⟨-, h, -, -⟩
  have h0 := (h [roomDefaults (.obj [("room", .str "A")])] rfl _ (List.mem_singleton.2 rfl)).1
  have h1 : true = false := h0
  cases h1

/-- C10 amended: after `processReportData` has run on any payload (also one that makes it
throw), in the list slices of the state each popular room's `percentage`, each active
user's `count` and each month's `professorCount`, `studentCount` and `total` is neither
null nor undefined, and each month's `adminCount` is not undefined, given that this held
before the call (as it does for the initial empty lists); the statistics counts are not
normalised in state, but what the view renders for them, `stats.field || 0`, is never
null or undefined. A popular room's `count` is stored as received. -/
theorem defaulted_numbers_present (env : Env) (w : World) (d : JsVal)
    (hinv : DefaultedNumbersPresent w.view) :
    DefaultedNumbersPresent (processReportData env d w).2.view ∧
    ∀ k, nullish (statCell (processReportData env d w).2.view k) = false := by
  obtain ⟨i1, i2, i3⟩ := hinv
  obtain ⟨c1, c2, c3⟩ := processedView_slices w.view d
  refine ⟨⟨?_, ?_, ?_⟩, fun k => jsOr_not_nullish _ rfl⟩
  · rw [processReportData_view]
    intro rs hrs r hr
    rcases c1 with h | h
    · rw [h] at hrs
      exact i1 rs hrs r hr
    · rw [h] at hrs
      rcases sliceAfter_cases roomDefaults w.view.popularRooms (field d "popularRooms") with
        h' | ⟨xs, h'⟩
      · rw [h'] at hrs
        exact i1 rs hrs r hr
      · rw [h'] at hrs
        cases hrs
        obtain ⟨x, -, rfl⟩ := List.mem_map.1 hr
        rw [field_roomDefaults_percentage]
        exact jsOr_not_nullish _ rfl
  · rw [processReportData_view]
    intro us hus u hu
    rcases c2 with h | h
    · rw [h] at hus
      exact i2 us hus u hu
    · rw [h] at hus
      rcases sliceAfter_cases userDefaults w.view.mostActiveUsers (field d "activeUsers") with
        h' | ⟨xs, h'⟩
      · rw [h'] at hus
        exact i2 us hus u hu
      · rw [h'] at hus
        cases hus
        obtain ⟨x, -, rfl⟩ := List.mem_map.1 hu
        rw [field_userDefaults_count]
        exact jsOr_not_nullish _ rfl
  · rw [processReportData_view]
    intro ms hms m hm
    rcases c3 with h | h
    · rw [h] at hms
      exact i3 ms hms m hm
    · rw [h] at hms
      rcases sliceAfter_cases monthDefaults w.view.monthlyActivity
        (field d "monthlyActivity") with h' | ⟨xs, h'⟩
      · rw [h'] at hms
        exact i3 ms hms m hm
      · rw [h'] at hms
        cases hms
        obtain ⟨x, -, rfl⟩ := List.mem_map.1 hm
        rw [field_monthDefaults_professorCount, field_monthDefaults_studentCount,
          field_monthDefaults_adminCount, field_monthDefaults_total]
        exact ⟨jsOr_not_nullish _ rfl, jsOr_not_nullish _ rfl, definedOrZero_ne_undefined _,
          jsOr_not_nullish _ rfl⟩

theorem defaultedNumbersPresent_initial : DefaultedNumbersPresent initialView := by
  refine ⟨?_, ?_, ?_⟩ <;>
  · intro rs h r hr
    cases h
    cases hr

/-- C10 witness: the scenario payload processed in the freshly mounted component. -/
theorem defaulted_numbers_present_witness :
    DefaultedNumbersPresent (processReportData offlineEnv scenarioPayload initialWorld).2.view ∧
    ∀ k, nullish (statCell (processReportData offlineEnv scenarioPayload initialWorld).2.view k)
      = false :=
  defaulted_numbers_present offlineEnv initialWorld scenarioPayload
    defaultedNumbersPresent_initial

/-! ## fetchReportData (C1, C4) -/

theorem consoleOnly_not_httpGet {l : List Event} (hl : ∀ e ∈ l, ∃ msg, e = Event.console msg)
    (url : String) : Event.httpGet url ∉ l := by
  intro h
  obtain ⟨msg, hm⟩ := hl _ h
  cases hm

theorem consoleOnly_not_setError {l : List Event} (hl : ∀ e ∈ l, ∃ msg, e = Event.console msg)
    (v : Option String) : Event.setError v ∉ l := by
  intro h
  obtain ⟨msg, hm⟩ := hl _ h
  cases hm

/-- C1 as stated fails: the primary call throws, the fallback request succeeds with the
body `null`, `processReportData(null)` throws, and the error message is stored although
the fallback request did not fail. -/
theorem fallback_counterexample_unprocessable_body :
    nullBodyEnv.hasMethod "getReportsData" = true ∧
      nullBodyEnv.api initialWorld.requests "getReportsData" =
        .error (errorWith "Network Error") ∧
      ¬ ErrorOnlyAfterFailedRequest nullBodyEnv initialWorld := by
  refine ⟨rfl, rfl, ?_⟩
  intro h
  have h0 := h _ rfl "Failed to load report data: Network Error" (by decide)
  cases h0

set_option maxRecDepth 4000 in
/-- C1 amended: in every run of `fetchReportData` in which the API client exposes
`getReportsData` and that call throws, the direct request to the reports endpoint is
issued exactly once, no error message is stored before it, and an error message is stored
afterwards only when the fallback attempt has failed: the request threw, or its response
could not be read or processed. -/
theorem fallback_issued_once (env : Env) (w : World) (e : JsVal)
    (hapi : env.hasMethod "getReportsData" = true)
    (hfail : env.api w.requests "getReportsData" = .error e) :
    ∃ l1 l2, (fetchReportData env w).2.trace = w.trace ++ l1 ++ [.httpGet reportsUrl] ++ l2 ∧
      (∀ url, Event.httpGet url ∉ l1 ∧ Event.httpGet url ∉ l2) ∧
      (∀ msg, Event.setError (some msg) ∉ l1) ∧
      (∀ msg, Event.setError (some msg) ∈ l2 → fallbackFails env (w.requests + 1) = true) := by
  unfold fetchReportData
  simp only [run_tryFinally, run_tryCatch, run_bind, run_console, run_setLoading, run_setError,
    run_apiCall, run_axiosGet, run_liftE, hapi, hfail, if_true]
  refine ⟨[.console "⚠️ About to fetch report data", .setLoading true, .setError none,
    .console "Using API.reportsAPI for data fetch", .apiCall "getReportsData",
    .console "❌ Error fetching report data:",
    .console "Attempting direct axios request as fallback"], ?_⟩
  unfold fallbackFails
  rcases hg : env.httpGet (w.requests + 1) reportsUrl with e2 | response
  · rcases hm : loadErrorMessage env.engine e with t | msg
    · exact ⟨[.console "Fallback request also failed:", .setLoading false], by simp⟩
    · exact ⟨[.console "Fallback request also failed:", .setError (some msg),
        .setLoading false], by simp⟩
  · cases hn : nullish response
    · obtain ⟨r, f, l, hrun, hl, hf, hok, hbad⟩ :=
        processReportData_run env (field response "data")
      simp only [getProp_ok _ _ hn, hrun]
      cases hp : payloadOk (field response "data")
      · obtain ⟨e3, rfl⟩ := hbad hp
        rcases hm : loadErrorMessage env.engine e with t | msg
        · refine ⟨l ++ [.console "Fallback request also failed:", .setLoading false], ?_⟩
          simp
          exact fun url => consoleOnly_not_httpGet hl url
        · refine ⟨l ++ [.console "Fallback request also failed:", .setError (some msg),
            .setLoading false], ?_⟩
          simp
          exact fun url => consoleOnly_not_httpGet hl url
      · obtain ⟨rfl, -⟩ := hok hp
        refine ⟨l ++ [.setError none, .setLoading false], ?_⟩
        simp [hn]
        exact ⟨fun url => consoleOnly_not_httpGet hl url,
          fun msg => consoleOnly_not_setError hl (some msg)⟩
    · rcases hm : loadErrorMessage env.engine e with t | msg
      · exact ⟨[.console "Fallback request also failed:", .setLoading false],
          by simp [getProp, hn]⟩
      · exact ⟨[.console "Fallback request also failed:", .setError (some msg),
          .setLoading false], by simp [getProp, hn]⟩

/-- C1 witness: the primary call throws and the endpoint answers with the body `null`. -/
theorem fallback_issued_once_witness :
    ∃ l1 l2, (fetchReportData nullBodyEnv initialWorld).2.trace =
        initialWorld.trace ++ l1 ++ [.httpGet reportsUrl] ++ l2 ∧
      (∀ url, Event.httpGet url ∉ l1 ∧ Event.httpGet url ∉ l2) ∧
      (∀ msg, Event.setError (some msg) ∉ l1) ∧
      (∀ msg, Event.setError (some msg) ∈ l2 →
        fallbackFails nullBodyEnv (initialWorld.requests + 1) = true) :=
  fallback_issued_once nullBodyEnv initialWorld (errorWith "Network Error") rfl rfl

theorem fetchReportData_eq (env : Env) :
    fetchReportData env = tryFinally (tryCatch (fetchTry env) (fetchCatch env))
      (setLoading false) := rfl

/-- The result of reading and processing a response is the same in every world. -/
theorem consume_result (env : Env) (response : JsVal) (w : World) :
    (consume env response w).1 = attemptResult env (.ok response) := by
  obtain ⟨r, f, l, hrun, -⟩ :=
    (Uniform.bind (Uniform.liftE (getProp env.engine response "data"))
      (fun d => processReportData_uniform env d)).run
  have h1 : consume env response w = _ := hrun w
  have h2 : consume env response ⟨initialView, 0, [], []⟩ = _ := hrun _
  rw [attemptResult, h1, h2]

theorem attemptResult_ok_nullish (env : Env) {response : JsVal} (h : nullish response = true) :
    attemptResult env (.ok response) =
      .error (errorWith (env.engine.readOfNullish response "data")) := by
  simp [attemptResult, consume, run_bind, run_liftE, getProp, h]

theorem attemptResult_ok_run (env : Env) {response : JsVal} (h : nullish response = false)
    {r : Except JsError Unit} {f : ViewState → ViewState} {l : List Event}
    (hrun : ∀ w : World, processReportData env (field response "data") w =
      (r, { w with view := f w.view, trace := w.trace ++ l })) :
    attemptResult env (.ok response) = r := by
  simp [attemptResult, consume, run_bind, run_liftE, getProp_ok _ _ h, hrun]

/-- For a caught value that can be read, the inner catch computes the prefix, possibly
the API configuration note, and the text of the message. -/
theorem loadErrorMessage_text (eng : Engine) {e : JsVal} {t : String}
    (h : messageText e = some t) :
    ∃ mid, loadErrorMessage eng e = .ok ("Failed to load report data: " ++ mid ++ t) := by
  unfold messageText at h
  cases hn : nullish e
  · simp only [hn, Bool.false_eq_true, if_false] at h
    simp only [loadErrorMessage, mentionsUndefined, messageOrUnknown, getProp_ok eng _ hn,
      bind, Except.bind, pure, Except.pure]
    rcases hm : field e "message" with _ | _ | b | n | s | xs | fs <;> rw [hm] at h <;>
      simp only [truthy] at h ⊢
    · cases h
      exact ⟨"", rfl⟩
    · cases h
      exact ⟨"", rfl⟩
    · cases b
      · cases h
        exact ⟨"", rfl⟩
      · simp at h
    · by_cases h0 : n = 0
      · subst h0
        simp at h
        subst h
        exact ⟨"", rfl⟩
      · simp [h0] at h
    · by_cases hs : s = ""
      · subst hs
        simp at h
        subst h
        exact ⟨"", rfl⟩
      · simp only [hs, if_false, Option.some.injEq] at h
        subst h
        have hne : (s != "") = true := by simpa using hs
        simp only [hne, if_true, jsIncludes]
        cases hi : includes s "undefined"
        · refine ⟨"", ?_⟩
          simp [jsOr, truthy, hne, toJsString]
        · refine ⟨"API configuration error - ", ?_⟩
          simp [toJsString, String.append_assoc]
    · cases h
      obtain ⟨b, hb⟩ : ∃ b, jsIncludes eng "error.message.includes" (.arr xs) "undefined" =
          .ok b := ⟨_, rfl⟩
      simp only [if_true, hb]
      cases b
      · refine ⟨"", ?_⟩
        simp [jsOr, truthy]
      · refine ⟨"API configuration error - ", ?_⟩
        simp [String.append_assoc]
    · simp at h
  · simp [hn] at h

set_option maxRecDepth 4000 in
theorem fetchTry_run (env : Env) (w : World) :
    ∃ w1, fetchTry env w = (attemptResult env (primaryOutcome env w.requests), w1) ∧
      w1.requests = w.requests + 1 ∧ w1.view.error = none ∧
      ∃ l, w1.trace = w.trace ++ fetchStarted :: l := by
  unfold fetchTry primaryOutcome
  cases hm : env.hasMethod "getReportsData"
  · simp only [run_bind, run_console, run_setLoading, run_setError, run_apiCall, run_axiosGet,
      run_liftE, if_false, Bool.false_eq_true]
    rcases hp : env.httpGet w.requests reportsUrl with e | response
    · exact ⟨_, rfl, rfl, rfl, _, by simp [fetchStarted]; rfl⟩
    · cases hn : nullish response
      · obtain ⟨r, f, l, hrun, -, hf, -, -⟩ := processReportData_run env (field response "data")
        rw [attemptResult_ok_run env hn hrun]
        simp only [getProp_ok _ _ hn, hrun]
        exact ⟨_, rfl, rfl, (hf _).2.1, _, by simp [fetchStarted]; rfl⟩
      · rw [attemptResult_ok_nullish env hn]
        simp only [getProp, hn, if_true]
        exact ⟨_, rfl, rfl, rfl, _, by simp [fetchStarted]; rfl⟩
  · simp only [run_bind, run_console, run_setLoading, run_setError, run_apiCall, run_axiosGet,
      run_liftE, if_true]
    rcases hp : env.api w.requests "getReportsData" with e | response
    · exact ⟨_, rfl, rfl, rfl, _, by simp [fetchStarted]; rfl⟩
    · cases hn : nullish response
      · obtain ⟨r, f, l, hrun, -, hf, -, -⟩ := processReportData_run env (field response "data")
        rw [attemptResult_ok_run env hn hrun]
        simp only [getProp_ok _ _ hn, hrun]
        exact ⟨_, rfl, rfl, (hf _).2.1, _, by simp [fetchStarted]; rfl⟩
      · rw [attemptResult_ok_nullish env hn]
        simp only [getProp, hn, if_true]
        exact ⟨_, rfl, rfl, rfl, _, by simp [fetchStarted]; rfl⟩

set_option maxRecDepth 4000 in
theorem fetchCatch_run (env : Env) (error : JsVal) (w : World) :
    ∃ r w1, fetchCatch env error w = (r, w1) ∧
      (attemptResult env (env.httpGet w.requests reportsUrl) = .ok () →
        r = .ok () ∧ w1.view.error = none) ∧
      (∀ e2, attemptResult env (env.httpGet w.requests reportsUrl) = .error e2 →
        (∀ msg, loadErrorMessage env.engine error = .ok msg →
          r = .ok () ∧ w1.view.error = some msg) ∧
        (∀ t, loadErrorMessage env.engine error = .error t →
          r = .error t ∧ w1.view.error = w.view.error)) ∧
      ∃ l, w1.trace = w.trace ++ l := by
  unfold fetchCatch
  simp only [run_bind, run_tryCatch, run_console, run_setError, run_axiosGet, run_liftE]
  rcases hm : loadErrorMessage env.engine error with t | msg
  · have hbad : ∀ (r : Except JsError Unit) (w1 : World), r = .error t →
        w1.view.error = w.view.error →
        (∀ msg, (Except.error t : Except JsError String) = .ok msg →
          r = .ok () ∧ w1.view.error = some msg) ∧
        (∀ t', (Except.error t : Except JsError String) = .error t' →
          r = .error t' ∧ w1.view.error = w.view.error) := by
      intro r w1 hr hw
      refine ⟨fun msg h => (by cases h), fun t' h => ?_⟩
      cases h
      exact ⟨hr, hw⟩
    rcases hp : env.httpGet w.requests reportsUrl with e | response
    · refine ⟨_, _, rfl, ?_, fun _ _ => hbad _ _ rfl rfl, _,
        by simp only [List.append_assoc]; rfl⟩
      intro h
      simp [attemptResult] at h
    · cases hn : nullish response
      · obtain ⟨r, f, l, hrun, -, hf, -, -⟩ := processReportData_run env (field response "data")
        rw [attemptResult_ok_run env hn hrun]
        simp only [getProp_ok _ _ hn, hrun]
        cases r with
        | error e3 =>
          refine ⟨_, _, rfl, ?_, fun _ _ => hbad _ _ rfl (hf _).2.1, _,
            by simp only [List.append_assoc]; rfl⟩
          intro h
          cases h
        | ok u =>
          refine ⟨_, _, rfl, fun _ => ⟨rfl, rfl⟩, ?_, _, by simp only [List.append_assoc]; rfl⟩
          intro e2 h
          cases h
      · rw [attemptResult_ok_nullish env hn]
        simp only [getProp, hn, if_true]
        refine ⟨_, _, rfl, ?_, fun _ _ => hbad _ _ rfl rfl, _,
          by simp only [List.append_assoc]; rfl⟩
        intro h
        cases h
  · have hgood : ∀ (r : Except JsError Unit) (w1 : World), r = .ok () →
        w1.view.error = some msg →
        (∀ msg', (Except.ok msg : Except JsError String) = .ok msg' →
          r = .ok () ∧ w1.view.error = some msg') ∧
        (∀ t', (Except.ok msg : Except JsError String) = .error t' →
          r = .error t' ∧ w1.view.error = w.view.error) := by
      intro r w1 hr hw
      refine ⟨fun msg' h => ?_, fun t' h => (by cases h)⟩
      cases h
      exact ⟨hr, hw⟩
    rcases hp : env.httpGet w.requests reportsUrl with e | response
    · refine ⟨_, _, rfl, ?_, fun _ _ => hgood _ _ rfl rfl, _,
        by simp only [List.append_assoc]; rfl⟩
      intro h
      simp [attemptResult] at h
    · cases hn : nullish response
      · obtain ⟨r, f, l, hrun, -, hf, -, -⟩ := processReportData_run env (field response "data")
        rw [attemptResult_ok_run env hn hrun]
        simp only [getProp_ok _ _ hn, hrun]
        cases r with
        | error e3 =>
          refine ⟨_, _, rfl, ?_, fun _ _ => hgood _ _ rfl rfl, _,
            by simp only [List.append_assoc]; rfl⟩
          intro h
          cases h
        | ok u =>
          refine ⟨_, _, rfl, fun _ => ⟨rfl, rfl⟩, ?_, _, by simp only [List.append_assoc]; rfl⟩
          intro e2 h
          cases h
      · rw [attemptResult_ok_nullish env hn]
        simp only [getProp, hn, if_true]
        refine ⟨_, _, rfl, ?_, fun _ _ => hgood _ _ rfl rfl, _,
          by simp only [List.append_assoc]; rfl⟩
        intro h
        cases h

/-- The result and the state of every run of `fetchReportData`, by the results of the two
attempts and of the reading of the first failure in the inner catch. -/
theorem fetchReportData_result (env : Env) (w : World) :
    ∃ r w', fetchReportData env w = (r, w') ∧ w'.view.loading = false ∧
      (attemptResult env (primaryOutcome env w.requests) = .ok () →
        r = .ok () ∧ w'.view.error = none) ∧
      (∀ e, attemptResult env (primaryOutcome env w.requests) = .error e →
        (attemptResult env (env.httpGet (w.requests + 1) reportsUrl) = .ok () →
          r = .ok () ∧ w'.view.error = none) ∧
        (∀ e2, attemptResult env (env.httpGet (w.requests + 1) reportsUrl) = .error e2 →
          (∀ msg, loadErrorMessage env.engine e = .ok msg →
            r = .ok () ∧ w'.view.error = some msg) ∧
          (∀ t, loadErrorMessage env.engine e = .error t →
            r = .error t ∧ w'.view.error = none))) := by
  obtain ⟨w1, h1, hreq, herr, -⟩ := fetchTry_run env w
  rw [fetchReportData_eq]
  simp only [run_tryFinally, run_tryCatch, h1, run_setLoading]
  rcases hr : attemptResult env (primaryOutcome env w.requests) with e | u
  · obtain ⟨r2, w2, h2, hok, hbad, -⟩ := fetchCatch_run env e w1
    rw [hreq] at hok hbad
    rw [herr] at hbad
    simp only [h2]
    cases r2 with
    | error t2 =>
      refine ⟨_, _, rfl, rfl, ?_, ?_⟩
      · intro h
        cases h
      intro e' he'
      cases he'
      exact ⟨hok, hbad⟩
    | ok u2 =>
      refine ⟨_, _, rfl, rfl, ?_, ?_⟩
      · intro h
        cases h
      intro e' he'
      cases he'
      exact ⟨hok, hbad⟩
  · refine ⟨_, _, rfl, rfl, fun _ => ⟨rfl, herr⟩, ?_⟩
    intro e he
    cases he

/-- C4 as stated fails: `getReportsData` rejects with `null` and the network is down, so
both attempts fail; the inner catch throws on `error.message` before it stores anything,
the error state stays null and the run ends in that TypeError. -/
theorem fetchReportData_counterexample_null_rejection :
    attemptResult nullRejectEnv (primaryOutcome nullRejectEnv initialWorld.requests) =
        .error .null ∧
      attemptResult nullRejectEnv (nullRejectEnv.httpGet (initialWorld.requests + 1) reportsUrl) =
        .error (errorWith "Network Error") ∧
      (fetchReportData nullRejectEnv initialWorld).1 =
        .error (errorWith "Cannot read properties of null (reading \x27message\x27)") ∧
      (fetchReportData nullRejectEnv initialWorld).2.view.error = none ∧
      ¬ ShowsLoadFailure (fetchReportData nullRejectEnv initialWorld).2.view := by
  refine ⟨rfl, rfl, rfl, rfl, ?_⟩
  rintro ⟨rest, h⟩
  have hnone : (fetchReportData nullRejectEnv initialWorld).2.view.error = none := rfl
  rw [hnone] at h
  cases h

/-- C4 amended: every run of `fetchReportData` ends with the loading flag false; if the
first attempt or the fallback attempt succeeds the error state is null; if both attempts
fail and the first failure can be read by the inner catch (it is not null or undefined
and its message is a string, an array, or absent or otherwise falsy), the error state is
a message that begins with "Failed to load report data: " and ends with the message of
the first failure, or with "Unknown error" when that failure has no message. -/
theorem fetchReportData_flags (env : Env) (w : World) :
    (fetchReportData env w).2.view.loading = false ∧
    (attemptResult env (primaryOutcome env w.requests) = .ok () →
      (fetchReportData env w).2.view.error = none) ∧
    (∀ e, attemptResult env (primaryOutcome env w.requests) = .error e →
      (attemptResult env (env.httpGet (w.requests + 1) reportsUrl) = .ok () →
        (fetchReportData env w).2.view.error = none) ∧
      (∀ e2, attemptResult env (env.httpGet (w.requests + 1) reportsUrl) = .error e2 →
        ∀ t, messageText e = some t →
          ∃ mid, (fetchReportData env w).2.view.error =
            some ("Failed to load report data: " ++ mid ++ t))) := by
  obtain ⟨r, w', hrun, hload, hfirst, hboth⟩ := fetchReportData_result env w
  rw [hrun]
  refine ⟨hload, fun h => (hfirst h).2, ?_⟩
  intro e he
  refine ⟨fun h => ((hboth e he).1 h).2, ?_⟩
  intro e2 he2 t ht
  obtain ⟨mid, hmid⟩ := loadErrorMessage_text env.engine ht
  exact ⟨mid, (((hboth e he).2 e2 he2).1 _ hmid).2⟩

/-- C4 witness: without API client and with the network down, both attempts fail and
the message of the first failure is shown. -/
theorem fetchReportData_flags_witness :
    (fetchReportData offlineEnv initialWorld).2.view.loading = false ∧
      ∃ mid, (fetchReportData offlineEnv initialWorld).2.view.error =
        some ("Failed to load report data: " ++ mid ++ "Network Error") :=
  ⟨(fetchReportData_flags offlineEnv initialWorld).1,
    ((fetchReportData_flags offlineEnv initialWorld).2.2 (errorWith "Network Error") rfl).2
      (errorWith "Network Error") rfl "Network Error" rfl⟩

theorem fetchReportData_trace (env : Env) (w : World) :
    ∃ l, (fetchReportData env w).2.trace = w.trace ++ fetchStarted :: l := by
  obtain ⟨w1, h1, -, -, l1, ht1⟩ := fetchTry_run env w
  rw [fetchReportData_eq]
  simp only [run_tryFinally, run_tryCatch, h1, run_setLoading]
  rcases attemptResult env (primaryOutcome env w.requests) with e | u
  · obtain ⟨r2, w2, h2, -, -, l2, ht2⟩ := fetchCatch_run env e w1
    simp only [h2]
    cases r2 <;> simp only [ht2, ht1] <;>
      exact ⟨l1 ++ l2 ++ [.setLoading false], by simp⟩
  · simp only [ht1]
    exact ⟨l1 ++ [.setLoading false], by simp⟩

/-! ## handleRegenerate (C2) -/

/-- C2 as stated fails: when the regenerate request throws, `handleRegenerate` goes to
its `catch` block and never calls `fetchReportData`. -/
theorem regenerate_counterexample_no_fetch_on_failure :
    regenerateOutcome offlineEnv initialWorld.requests = .error (errorWith "Network Error") ∧
      ¬ FetchInvoked offlineEnv initialWorld := by
  refine ⟨rfl, ?_⟩
  rintro ⟨l, hl, hmem⟩
  have h : (handleRegenerate offlineEnv initialWorld).2.trace =
      [] ++ [.setLoading true, .httpPost regenerateUrl, .console "Error regenerating reports:",
        .setError (some "Failed to regenerate reports: Network Error"), .setLoading false] := by
    decide
  rw [h] at hl
  have hl' := List.append_cancel_left hl
  subst hl'
  revert hmem
  decide

theorem handleRegenerate_eq (env : Env) :
    handleRegenerate env = tryFinally (tryCatch (regenerateTry env) (regenerateCatch env))
      (setLoading false) := rfl

/-- The `catch` block of `handleRegenerate` logs the failure and, at most, stores a
message. -/
theorem regenerateCatch_trace (env : Env) (e : JsVal) (w : World) :
    ∃ l, (regenerateCatch env e w).2.trace =
        w.trace ++ (.console "Error regenerating reports:" :: l) ∧ fetchStarted ∉ l := by
  unfold regenerateCatch
  simp only [run_bind, run_console, run_liftE, run_setError]
  rcases regenerateErrorMessage env.engine e with t | msg
  · exact ⟨[], rfl, by simp⟩
  · exact ⟨[.setError (some msg)], by simp, by simp [fetchStarted]⟩

/-- When the regenerate request throws, the `try` block of `handleRegenerate` ends at
the request. -/
theorem regenerateTry_failure (env : Env) (w : World) (e : JsVal)
    (h : regenerateOutcome env w.requests = .error e) :
    ∃ ev w1, regenerateTry env w = (.error e, w1) ∧
      w1.trace = w.trace ++ [.setLoading true, ev] ∧ ev ≠ fetchStarted := by
  unfold regenerateTry
  unfold regenerateOutcome at h
  dsimp only
  cases hm : env.hasMethod "regenerateReports"
  · simp only [hm, if_false, Bool.false_eq_true] at h
    simp only [run_bind, run_setLoading, run_apiCall, run_axiosPost, run_pure, h, if_false,
      Bool.false_eq_true]
    exact ⟨.httpPost regenerateUrl, _, rfl, by simp, by decide⟩
  · simp only [hm, if_true] at h
    simp only [run_bind, run_setLoading, run_apiCall, run_axiosPost, run_pure, h, if_true]
    exact ⟨.apiCall "regenerateReports", _, rfl, by simp, by decide⟩

/-- When the regenerate request succeeds, the `try` block of `handleRegenerate` goes on
to `fetchReportData`. -/
theorem regenerateTry_success (env : Env) (w : World) (r : JsVal)
    (h : regenerateOutcome env w.requests = .ok r) :
    ∃ l, (regenerateTry env w).2.trace = w.trace ++ l ∧ fetchStarted ∈ l := by
  unfold regenerateTry
  unfold regenerateOutcome at h
  dsimp only
  cases hm : env.hasMethod "regenerateReports"
  · simp only [hm, if_false, Bool.false_eq_true] at h
    simp only [run_bind, run_setLoading, run_apiCall, run_axiosPost, run_pure, h, if_false,
      Bool.false_eq_true]
    obtain ⟨l, hl⟩ := fetchReportData_trace env
      { w with view := { w.view with loading := true }, requests := w.requests + 1,
               trace := w.trace ++ [.setLoading true] ++ [.httpPost regenerateUrl] }
    rw [hl]
    exact ⟨[.setLoading true, .httpPost regenerateUrl] ++ fetchStarted :: l, by simp, by simp⟩
  · simp only [hm, if_true] at h
    simp only [run_bind, run_setLoading, run_apiCall, run_axiosPost, run_pure, h, if_true]
    obtain ⟨l, hl⟩ := fetchReportData_trace env
      { w with view := { w.view with loading := true }, requests := w.requests + 1,
               trace := w.trace ++ [.setLoading true] ++ [.apiCall "regenerateReports"] }
    rw [hl]
    exact ⟨[.setLoading true, .apiCall "regenerateReports"] ++ fetchStarted :: l,
      by simp, by simp⟩

/-- When the regenerate request throws, the handler logs the failure and, at most, stores
a message; it does not start a fetch. -/
theorem handleRegenerate_failure (env : Env) (w : World) (e : JsVal)
    (h : regenerateOutcome env w.requests = .error e) :
    ∃ ev l, (handleRegenerate env w).2.trace =
        w.trace ++ (.setLoading true :: ev :: .console "Error regenerating reports:" :: l) ∧
      ev ≠ fetchStarted ∧ fetchStarted ∉ l := by
  obtain ⟨ev, w1, h1, ht1, hev⟩ := regenerateTry_failure env w e h
  obtain ⟨l, hl, hmem⟩ := regenerateCatch_trace env e w1
  rw [handleRegenerate_eq]
  simp only [run_tryFinally, run_tryCatch, h1, run_setLoading]
  rcases hc : regenerateCatch env e w1 with ⟨rc, wc⟩
  rw [hc] at hl
  simp only [] at hl
  have hlast : fetchStarted ≠ Event.setLoading false := by decide
  refine ⟨ev, l ++ [.setLoading false], ?_, hev, by simp [hmem, hlast]⟩
  cases rc <;> simp [hl, ht1]

/-- When the regenerate request succeeds, the handler goes on to `fetchReportData`. -/
theorem handleRegenerate_success (env : Env) (w : World) (r : JsVal)
    (h : regenerateOutcome env w.requests = .ok r) :
    ∃ l, (handleRegenerate env w).2.trace = w.trace ++ l ∧ fetchStarted ∈ l := by
  obtain ⟨l, hl, hmem⟩ := regenerateTry_success env w r h
  rw [handleRegenerate_eq]
  simp only [run_tryFinally, run_tryCatch, run_setLoading]
  rcases ht : regenerateTry env w with ⟨rt, wt⟩
  rw [ht] at hl
  simp only [] at hl
  cases rt with
  | ok u =>
    exact ⟨l ++ [.setLoading false], by simp [hl], by simp [hmem]⟩
  | error e =>
    obtain ⟨l2, hl2, -⟩ := regenerateCatch_trace env e wt
    simp only []
    rcases hc : regenerateCatch env e wt with ⟨rc, wc⟩
    rw [hc] at hl2
    simp only [] at hl2
    refine ⟨l ++ (.console "Error regenerating reports:" :: l2) ++ [.setLoading false], ?_,
      by simp [hmem]⟩
    cases rc <;> simp [hl2, hl]

/-- C2 amended: a run of `handleRegenerate` invokes `fetchReportData` afterwards when the
regenerate request to the backend succeeds, and does not invoke it when that request
throws. -/
theorem regenerate_fetches_iff_success (env : Env) (w : World) :
    (∀ r, regenerateOutcome env w.requests = .ok r → FetchInvoked env w) ∧
    (∀ e, regenerateOutcome env w.requests = .error e → ¬ FetchInvoked env w) := by
  refine ⟨fun r h => handleRegenerate_success env w r h, ?_⟩
  intro e h
  obtain ⟨ev, l, hrun, hev, hl⟩ := handleRegenerate_failure env w e h
  rintro ⟨l', hl', hmem⟩
  rw [hrun] at hl'
  have hl2 := List.append_cancel_left hl'
  subst hl2
  simp only [List.mem_cons] at hmem
  rcases hmem with h1 | h1 | h1 | h1
  · revert h1
    decide
  · exact hev h1.symm
  · revert h1
    decide
  · exact hl h1

/-- C2 witness: with the network down the regenerate request throws and nothing is
fetched. -/
theorem regenerate_fetches_iff_success_witness :
    regenerateOutcome offlineEnv initialWorld.requests = .error (errorWith "Network Error") ∧
      ¬ FetchInvoked offlineEnv initialWorld :=
  ⟨rfl, (regenerate_fetches_iff_success offlineEnv initialWorld).2
    (errorWith "Network Error") rfl⟩

/-! ## Exports (C3) -/

/-- A `try` body guarded by a logging and alerting `catch` and by the `finally` that
resets the export flag returns normally with the flag false, whatever the body does. -/
theorem guarded_export (body : Eff Unit) (log msg : String) (w : World) :
    (tryFinally (tryCatch body (fun _ => do console log; alert msg))
        (setExportLoading false) w).1 = .ok () ∧
      (tryFinally (tryCatch body (fun _ => do console log; alert msg))
        (setExportLoading false) w).2.view.exportLoading = false := by
  simp only [run_tryFinally, run_tryCatch, run_bind, run_console, run_alert,
    run_setExportLoading]
  rcases body w with ⟨e | u, w1⟩
  · exact ⟨rfl, rfl⟩
  · exact ⟨rfl, rfl⟩

set_option maxRecDepth 4000 in
/-- When the transport call of `generateCSV` throws, the user is alerted. -/
theorem generateCSV_alerts (env : Env) (w : World) (e : JsError)
    (h : exportOutcome env "exportCsv" csvUrl w.requests = .error e) :
    Event.alert "Failed to download CSV report. Please try again." ∈
      (generateCSV env w).2.trace := by
  unfold generateCSV
  unfold exportOutcome at h
  cases hm : env.hasMethod "exportCsv" <;> simp only [hm, if_false, if_true, Bool.false_eq_true] at h <;>
  simp [run_tryFinally, run_tryCatch, run_bind, run_console, run_alert, run_setExportLoading,
    run_apiCall, run_axiosGet, hm, h]

/-- C3: for each of `generateCSV`, `generateExcel` and `generatePDF`, and for every
outcome of the transport call and of every other step inside the handler, no exception
escapes and the `exportLoading` flag is false when the handler completes. -/
theorem exports_never_throw (env : Env) (w : World) :
    ((generateCSV env w).1 = .ok () ∧ (generateCSV env w).2.view.exportLoading = false) ∧
    ((generateExcel env w).1 = .ok () ∧ (generateExcel env w).2.view.exportLoading = false) ∧
    ((generatePDF env w).1 = .ok () ∧ (generatePDF env w).2.view.exportLoading = false) :=
  ⟨guarded_export _ _ _ w, guarded_export _ _ _ w, guarded_export _ _ _ w⟩

/-! ## Excel export against the normaliser (C11) -/

/-- Where the export and the normaliser agree on a user and where they do not: the
reservation count always agrees, name and role agree when the payload carries them, and a
missing name or role is "Unknown" in the export but "Unknown User" / "Unknown Role" in
the normalised record. -/
theorem excelUserRow_vs_userDefaults (eng : Engine) (u : JsVal) (hn : nullish u = false) :
    ∃ row, excelUserRow eng u = .ok row ∧
      field row "Reservations" = field (userDefaults u) "count" ∧
      (truthy (field u "userName") = true →
        field row "User" = field (userDefaults u) "userName") ∧
      (truthy (field u "role") = true → field row "Role" = field (userDefaults u) "role") ∧
      (truthy (field u "userName") = false →
        field row "User" = .str "Unknown" ∧
        field (userDefaults u) "userName" = .str "Unknown User") ∧
      (truthy (field u "role") = false →
        field row "Role" = .str "Unknown" ∧
        field (userDefaults u) "role" = .str "Unknown Role") := by
  refine ⟨.obj [("User", jsOr (field u "userName") (.str "Unknown")),
    ("Role", jsOr (field u "role") (.str "Unknown")),
    ("Reservations", jsOr (field u "count") (.num 0))], ?_, ?_, ?_, ?_, ?_, ?_⟩
  · simp only [excelUserRow, getProp_ok eng _ hn, bind, Except.bind, pure, Except.pure]
  · rw [field_userDefaults_count]
    rfl
  · intro h
    rw [field_userDefaults_userName]
    show jsOr (field u "userName") (.str "Unknown") = _
    simp only [jsOr, h, if_true]
  · intro h
    rw [field_userDefaults_role]
    show jsOr (field u "role") (.str "Unknown") = _
    simp only [jsOr, h, if_true]
  · intro h
    rw [field_userDefaults_userName]
    refine ⟨?_, by simp only [jsOr, h, Bool.false_eq_true, if_false]⟩
    show jsOr (field u "userName") (.str "Unknown") = _
    simp only [jsOr, h, Bool.false_eq_true, if_false]
  · intro h
    rw [field_userDefaults_role]
    refine ⟨?_, by simp only [jsOr, h, Bool.false_eq_true, if_false]⟩
    show jsOr (field u "role") (.str "Unknown") = _
    simp only [jsOr, h, Bool.false_eq_true, if_false]

/-- C11 fails on the code: for the payload `{activeUsers: [{count: 3}]}`, `generateExcel`
writes the "Active Users" row `{User: "Unknown", Role: "Unknown", Reservations: 3}`,
while `processReportData` normalises the same user to `userName: "Unknown User"`,
`role: "Unknown Role"`, `count: 3`; the exported rows do not agree with the normalised
users. -/
theorem excel_active_users_divergence :
    writtenSheet (generateExcel (servingEnv namelessUserPayload) initialWorld).2 "Active Users" =
        [.obj [("User", .str "Unknown"), ("Role", .str "Unknown"), ("Reservations", .num 3)]] ∧
      (processReportData (servingEnv namelessUserPayload) namelessUserPayload
          initialWorld).2.view.mostActiveUsers =
        .arr [.obj [("count", .num 3), ("userName", .str "Unknown User"),
          ("role", .str "Unknown Role")]] ∧
      ¬ ExcelUsersAgree
        (writtenSheet (generateExcel (servingEnv namelessUserPayload) initialWorld).2
          "Active Users")
        (processReportData (servingEnv namelessUserPayload) namelessUserPayload
          initialWorld).2.view.mostActiveUsers := by
  refine ⟨rfl, rfl, ?_⟩
  rintro ⟨us, hus, -, hall⟩
  have hv : (processReportData (servingEnv namelessUserPayload) namelessUserPayload
      initialWorld).2.view.mostActiveUsers =
      .arr [userDefaults (.obj [("count", .num 3)])] := rfl
  rw [hv] at hus
  cases hus
  have h0 : JsVal.str "Unknown" = JsVal.str "Unknown User" :=
    (hall 0 (.obj [("User", .str "Unknown"), ("Role", .str "Unknown"),
      ("Reservations", .num 3)]) _ rfl rfl).1
  have h1 : "Unknown" = "Unknown User" := by
    injection h0
  revert h1
  decide

/-! ## Frame of processReportData (C12) -/

theorem truthy_of_nullish {v : JsVal} (h : nullish v = true) : truthy v = false := by
  cases v <;> simp_all [nullish, truthy]

theorem processedView_flags (s : ViewState) (d : JsVal) :
    (processedView s d).loading = s.loading ∧ (processedView s d).error = s.error ∧
      (processedView s d).exportLoading = s.exportLoading := by
  unfold processedView
  split_ifs <;> exact ⟨rfl, rfl, rfl⟩

theorem processedView_kept (s : ViewState) (d : JsVal) :
    (truthy (field d "statistics") = false → (processedView s d).stats = s.stats) ∧
    (truthy (field d "popularRooms") = false →
      (processedView s d).popularRooms = s.popularRooms) ∧
    (truthy (field d "activeUsers") = false →
      (processedView s d).mostActiveUsers = s.mostActiveUsers) ∧
    (truthy (field d "monthlyActivity") = false →
      (processedView s d).monthlyActivity = s.monthlyActivity) := by
  unfold processedView
  refine ⟨fun h => ?_, fun h => ?_, fun h => ?_, fun h => ?_⟩ <;>
  split_ifs <;> simp_all [sliceAfter_falsy]

theorem processedView_mostActiveUsers {d : JsVal} (hn : nullish d = false)
    (h1 : recordsOk (field d "popularRooms") = true)
    (h2 : recordsOk (field d "activeUsers") = true) (s : ViewState) :
    (processedView s d).mostActiveUsers =
      sliceAfter userDefaults s.mostActiveUsers (field d "activeUsers") := by
  unfold processedView
  simp only [hn, h1, h2, Bool.false_eq_true, if_false, if_true]
  split_ifs <;> rfl

theorem processedView_monthlyActivity {d : JsVal} (hn : nullish d = false)
    (h1 : recordsOk (field d "popularRooms") = true)
    (h2 : recordsOk (field d "activeUsers") = true)
    (h3 : recordsOk (field d "monthlyActivity") = true) (s : ViewState) :
    (processedView s d).monthlyActivity =
      sliceAfter monthDefaults s.monthlyActivity (field d "monthlyActivity") := by
  unfold processedView
  simp only [hn, h1, h2, h3, Bool.false_eq_true, if_false, if_true]

theorem sliceKept_of_kept {part old new : JsVal}
    (h : truthy part = false → new = old) : SliceKept part old new := by
  refine ⟨fun hn => h (truthy_of_nullish hn), fun hne => ?_⟩
  cases ht : truthy part
  · exact absurd (h ht) hne
  · rfl

/-- C12 as stated fails: the payload `{popularRooms: [null], activeUsers: []}` makes the
room callback throw, so the present empty user list is never reached and the users of
the earlier fetch stay in state. -/
theorem frame_counterexample_empty_list_after_throw :
    field nullRoomPayload "activeUsers" = .arr [] ∧
      (viewLeft offlineEnv nullRoomPayload fetchedWorld).mostActiveUsers =
        .arr [userDefaults (.obj [("userId", .num 7)])] ∧
      ¬ EmptyListsReplace offlineEnv nullRoomPayload fetchedWorld := by
  refine ⟨rfl, rfl, ?_⟩
  rintro ⟨-, h, -⟩
  have h0 : JsVal.arr [userDefaults (.obj [("userId", .num 7)])] = .arr [] := h rfl
  cases h0

/-- C12 amended: for every payload and every prior view state, `processReportData` never
changes the loading, error and export flags; it changes a slice (stats, popularRooms,
mostActiveUsers, monthlyActivity) only when the corresponding section (statistics,
popularRooms, activeUsers, monthlyActivity) is present: an absent, null or undefined
section leaves its slice exactly as it was; and a present empty list replaces the slice
by the empty list when the sections handled before it do not make `processReportData`
throw (always for popularRooms; for activeUsers when popularRooms is falsy or a list
without null record; for monthlyActivity when this holds of popularRooms and
activeUsers). -/
theorem processReportData_frame (env : Env) (d : JsVal) (w : World) :
    ((viewLeft env d w).loading = w.view.loading ∧ (viewLeft env d w).error = w.view.error ∧
      (viewLeft env d w).exportLoading = w.view.exportLoading) ∧
    (SliceKept (field d "statistics") w.view.stats (viewLeft env d w).stats ∧
      SliceKept (field d "popularRooms") w.view.popularRooms (viewLeft env d w).popularRooms ∧
      SliceKept (field d "activeUsers") w.view.mostActiveUsers
        (viewLeft env d w).mostActiveUsers ∧
      SliceKept (field d "monthlyActivity") w.view.monthlyActivity
        (viewLeft env d w).monthlyActivity) ∧
    (field d "popularRooms" = .arr [] → (viewLeft env d w).popularRooms = .arr []) ∧
    (field d "activeUsers" = .arr [] → recordsOk (field d "popularRooms") = true →
      (viewLeft env d w).mostActiveUsers = .arr []) ∧
    (field d "monthlyActivity" = .arr [] → recordsOk (field d "popularRooms") = true →
      recordsOk (field d "activeUsers") = true →
      (viewLeft env d w).monthlyActivity = .arr []) := by
  unfold viewLeft
  rw [processReportData_view]
  obtain ⟨k0, k1, k2, k3⟩ := processedView_kept w.view d
  refine ⟨processedView_flags w.view d,
    ⟨sliceKept_of_kept k0, sliceKept_of_kept k1, sliceKept_of_kept k2, sliceKept_of_kept k3⟩,
    ?_, ?_, ?_⟩
  · intro h
    have hn : nullish d = false := nullish_false_of_field h (by simp)
    rw [processedView_popularRooms hn (by rw [h]; rfl), h]
    rfl
  · intro h h1
    have hn : nullish d = false := nullish_false_of_field h (by simp)
    rw [processedView_mostActiveUsers hn h1 (by rw [h]; rfl), h]
    rfl
  · intro h h1 h2
    have hn : nullish d = false := nullish_false_of_field h (by simp)
    rw [processedView_monthlyActivity hn h1 h2 (by rw [h]; rfl), h]
    rfl

/-- C12 witness: after an earlier fetch, the payload `{popularRooms: []}` empties the room
list and leaves the statistics, users and months of the earlier fetch in state. -/
theorem processReportData_frame_witness :
    (viewLeft offlineEnv emptyRoomsPayload fetchedWorld).popularRooms = .arr [] ∧
      (viewLeft offlineEnv emptyRoomsPayload fetchedWorld).mostActiveUsers =
        fetchedWorld.view.mostActiveUsers ∧
      (viewLeft offlineEnv emptyRoomsPayload fetchedWorld).loading = fetchedWorld.view.loading :=
  ⟨(processReportData_frame offlineEnv emptyRoomsPayload fetchedWorld).2.2.1 rfl,
    (processReportData_frame offlineEnv emptyRoomsPayload fetchedWorld).2.1.2.2.1.1 rfl,
    (processReportData_frame offlineEnv emptyRoomsPayload fetchedWorld).1.1⟩

end AdminReports
